import Mathlib

/-!
Verification development for the CJ4 flight-guidance directors:
the vertical path director `WT_VnavAutopilot` (src/unnamed/part_000) and the
lateral director `LNavDirector`
(src/.../Shared/Autopilot/LNavDirector.js).

The JavaScript is embedded shallowly: numbers are `ℚ` (the source never relies
on float rounding in the guarded comparisons), fields that can hold
`undefined` are `Option ℚ` with the JS comparison semantics (`undefined`
compared to a number is false, `undefined != number` is true), simulator
variable writes mutate a threaded `SimVars` record, and key-value/`Coherent`
commands become an emitted event list.  Trigonometric functions that the
source applies to live angles are passed in as a parameter `tanDeg : ℚ → ℚ`
(the tangent of an angle given in degrees); the two places where the source
computes `tan (atan x)` are embedded as `x`, which is exact in real
arithmetic.  Rational division by zero is `0` in Lean; the source's degenerate
geometry (division by a zero distance) is outside every property below.
-/

/-- JS `Math.round`: round half toward positive infinity. -/
def jsRound (q : ℚ) : Int := Int.floor (q + 1/2)

/-- JS `Math.floor`. -/
def jsFloor (q : ℚ) : Int := Int.floor q

/-- JS `Math.ceil`. -/
def jsCeil (q : ℚ) : Int := Int.ceil q

/-- JS `Math.sign` (on our rational embedding). -/
def jsSign (q : ℚ) : ℚ := if q > 0 then 1 else if q < 0 then -1 else 0

/-- JS truthiness of a string: nonempty strings are truthy. -/
def jsTruthyStr (s : String) : Bool := s != ""

/-- JS `a > b` where `a` may be `undefined` (comparison with `undefined` is false). -/
def jsGtOQ (a : Option ℚ) (b : ℚ) : Bool :=
  match a with
  | some x => decide (x > b)
  | none => false

/-- JS `a > b + c` where both `a` and `b` may be `undefined`. -/
def jsGtOOplus (a b : Option ℚ) (c : ℚ) : Bool :=
  match a, b with
  | some x, some y => decide (x > y + c)
  | _, _ => false

/-- JS `a > b + c` where `b` may be `undefined`. -/
def jsGtQOplus (a : ℚ) (b : Option ℚ) (c : ℚ) : Bool :=
  match b with
  | some y => decide (a > y + c)
  | none => false

/-- JS `a < b` where `b` may be `undefined`. -/
def jsLtQO (a : ℚ) (b : Option ℚ) : Bool :=
  match b with
  | some y => decide (a < y)
  | none => false

/-- JS `Math.round a == Math.round b` where `a` may be `undefined`
(`Math.round undefined` is `NaN`, never equal). -/
def jsRoundEqOQ (a : Option ℚ) (b : ℚ) : Bool :=
  match a with
  | some x => decide (jsRound x = jsRound b)
  | none => false

/-- JS `Math.round a != b` where `b` may be `undefined`
(a number is loosely unequal to `undefined`). -/
def jsRoundNeQO (a : ℚ) (b : Option ℚ) : Bool :=
  match b with
  | some t => decide ((jsRound a : ℚ) ≠ t)
  | none => true

/-- JS `Math.floor a != b` where `b` may be `undefined`. -/
def jsFloorNeQO (a : ℚ) (b : Option ℚ) : Bool :=
  match b with
  | some t => decide ((jsFloor a : ℚ) ≠ t)
  | none => true

/-- Modelled from the spec: the external `NavModeSelector` vertical-mode
enumeration values; string constants, in the style of the in-repo `LNavState`
and `FlightPlanSequencing` classes. Only identity and truthiness of these
values are used by the embedded code. -/
def VerticalNavModeStateALTC : String := "ALTC"

/-- Altitude-hold vertical mode constant. -/
def VerticalNavModeStateALT : String := "ALT"

/-- Pitch vertical mode constant. -/
def VerticalNavModeStatePTCH : String := "PTCH"

/-- Vertical-speed vertical mode constant. -/
def VerticalNavModeStateVS : String := "VS"

/-- Flight-level-change vertical mode constant. -/
def VerticalNavModeStateFLC : String := "FLC"

/-- Glide-path vertical mode constant. -/
def VerticalNavModeStateGP : String := "GP"

/-- Modelled from the spec: the external lateral-mode enumeration value for
approach mode. -/
def LateralNavModeStateAPPR : String := "APPR"

/-- Lateral NAV mode constant. -/
def LateralNavModeStateNAV : String := "NAV"

/-- The vertical-speed constant `101.2686667` used throughout the source to
convert `groundSpeed * tan fpa` into feet per minute. -/
def vsConst : ℚ := 101.2686667

namespace WTVnav

/-- Commands emitted by the vertical director: `queueEvent` slot requests,
`Coherent.call` altitude/vertical-speed commands, and the `K:` panel event.
An `Option` payload records a `NaN` produced from an `undefined` field. -/
inductive GEvent
  | queueSlot1
  | queueSlot2
  | apAltVarSet (slot : Int) (value : Option ℚ) (forceCapture : Bool)
  | apVsVarSet (slot : Int) (value : ℚ)
  | apPanelVsHold
deriving DecidableEq, Repr

/-- Per-cycle snapshot of `this._vnav` (the upstream trajectory engine).
`newPath` is the one field the director writes back. Truthiness-tested object
fields (`_vnavConstraintType`, `_vnavConstraintWaypoint`) are Booleans. -/
structure VnavData where
  vnavCalculating : Bool
  vnavConstraintType : Bool
  pathCalculating : Bool
  newPath : Bool
  vnavTargetAltitude : ℚ
  vnavTargetDistance : ℚ
  topOfDescent : ℚ
  distanceToTod : ℚ
  altDeviation : ℚ
  gpExists : Bool
  gpAngle : ℚ
  desiredFPA : ℚ
  segmentIsDeparture : Bool
  vnavConstraintWaypoint : Bool
  vnavConstraintAltitude : ℚ
  constraintWaypointCumDist : ℚ
  activeWaypointCumDist : ℚ
  activeWaypointDist : ℚ
  altitude : ℚ
deriving DecidableEq, Repr

/-- Per-cycle view of `this._navModeSelector`. `armed0` is
`currentVerticalArmedStates[0]`, the one field `update` writes. -/
structure ModeSelector where
  currentVerticalActiveState : String
  armed0 : String
  currentLateralActiveState : String
  selectedAlt1 : ℚ
  selectedAlt2 : ℚ
  currentAltSlotIndex : Int
deriving DecidableEq, Repr

/-- The simulator variables the director reads and the `L:`/sim variables it
writes (writes are visible to later reads in the same cycle). `donut` is
`Option`-valued because the source can write `NaN` into it. -/
structure SimVars where
  pathStatus : Int
  snowflake : Int
  donut : Option ℚ
  constraintFlag : Int
  todAlert : Int
  tempActiveFPA : ℚ
  indicatedAltitude : ℚ
  altLock3 : ℚ
  altLock1 : ℚ
  groundSpeed : ℚ
  verticalSpeed : ℚ
  vsHoldVar2 : ℚ
  vsHoldOn : Int
  monConstraint : Int
  monPathArm : Int
  monPathActive : Int
  monInhibit : Int
  monObeying : Int
deriving DecidableEq, Repr

/-- The director's own mutable fields (constructor of `WT_VnavAutopilot`).
Fields the source never reads (`_vnavType`, `_runPath`, `_vnavTargetDistance`,
`_topOfDescent`, `_distanceToTod`, `_lastVnavTargetAltitude`,
`_lastVerticalMode`, `_pathExists`) are omitted. -/
structure VnavState where
  vnavTargetAltitude : Option ℚ
  inhibitExecute : Bool
  constraintExists : Bool
  pathArm : Bool
  pathArmAbove : Bool
  pathArmFired : Bool
  pathFromAboveRequiredVs : Option ℚ
  pathActive : Bool
  pathActivate : Bool
  obeyingConstraint : Bool
  vnavAltSlot : Option Int
  indicatedAltitude : Option ℚ
deriving DecidableEq, Repr

/-- The constructor state of `WT_VnavAutopilot`. -/
def initVnavState : VnavState :=
  { vnavTargetAltitude := none
    inhibitExecute := false
    constraintExists := false
    pathArm := false
    pathArmAbove := false
    pathArmFired := false
    pathFromAboveRequiredVs := none
    pathActive := false
    pathActivate := false
    obeyingConstraint := false
    vnavAltSlot := none
    indicatedAltitude := none }

/-- Source `deactivate()` (lines 353 to 365): clears the six flags and resets
the four annunciator outputs; it does not touch `_inhibitExecute`,
`_obeyingConstraint`, `_vnavAltSlot` or `_vnavTargetAltitude`. -/
def deactivate (d : VnavState) (sv : SimVars) : VnavState × SimVars :=
  ({ d with constraintExists := false, pathArm := false, pathArmAbove := false,
            pathActive := false, pathActivate := false, pathArmFired := false },
   { sv with constraintFlag := 0, snowflake := 0, pathStatus := 0, donut := some 0 })

/-- Source `failed()` (lines 367 to 379): like `deactivate` but does not clear
`_pathArmAbove`, and commands the raw `_vnav._altitude` to altitude slot 1
with forced capture. -/
def failed (d : VnavState) (sv : SimVars) (vnav : VnavData) :
    VnavState × SimVars × List GEvent :=
  ({ d with constraintExists := false, pathArm := false,
            pathActive := false, pathActivate := false, pathArmFired := false },
   { sv with constraintFlag := 0, snowflake := 0, pathStatus := 0, donut := some 0 },
   [GEvent.apAltVarSet 1 (some vnav.altitude) true])

/-- Source `vnavAltSlotRequest()` (lines 455 to 463): queue a slot-change
request when the desired preselector slot disagrees with the active slot. -/
def vnavAltSlotRequest (slot : Option Int) (altSlot : Int) : List GEvent :=
  if slot = some 1 ∧ altSlot = 2 then [GEvent.queueSlot1]
  else if slot = some 2 ∧ altSlot = 1 then [GEvent.queueSlot2]
  else []

/-- Source `recalculate()` (lines 465 to 472): clear the path flags and run
slot reconciliation. -/
def recalculate (d : VnavState) (sel : ModeSelector) : VnavState × List GEvent :=
  ({ d with pathArm := false, pathArmAbove := false,
            pathActive := false, pathActivate := false },
   vnavAltSlotRequest d.vnavAltSlot sel.currentAltSlotIndex)

/-- Source `cancelConstraint()` (lines 448 to 453). -/
def cancelConstraint (d : VnavState) : VnavState × List GEvent :=
  ({ d with vnavAltSlot := some 1, obeyingConstraint := false }, [GEvent.queueSlot1])

/-- Source `setTargetAltitude(targetAltitude)` (lines 381 to 398). The
`Option` argument is the JS default `this._vnavTargetAltitude`, which can be
`undefined`. -/
def setTargetAltitude (sel : ModeSelector) (sv : SimVars) (vnav : VnavData)
    (target : Option ℚ) : SimVars × List GEvent :=
  if sel.currentLateralActiveState = LateralNavModeStateAPPR then
    ({ sv with constraintFlag := 0 },
     [GEvent.apAltVarSet 2 (target.map (fun t => (jsRound (t - 500) : ℚ))) false])
  else
    let isClimb := vnav.segmentIsDeparture
    let selectedAltitude := sv.altLock1
    let updated := target.map (fun t =>
      if isClimb then min t selectedAltitude else max t selectedAltitude)
    let updated := updated.map (fun t => ((jsFloor t : ℚ)))
    ({ sv with constraintFlag := 1 },
     [GEvent.apAltVarSet 2 (updated.map (fun t => ((jsFloor t : ℚ)))) true])

/-- Source `checkPreselector()` (lines 437 to 446). -/
def checkPreselector (d : VnavState) (vnav : VnavData) (sv : SimVars) :
    VnavState × SimVars :=
  let approachingTodDistance := (0.0125 : ℚ) * sv.groundSpeed
  if ¬d.pathArm ∧ ¬d.pathArmFired ∧ vnav.distanceToTod < approachingTodDistance ∧
      vnav.distanceToTod > 0 then
    if sv.todAlert ≠ 1 then
      ({ d with pathArmFired := true }, { sv with todAlert := 1 })
    else (d, sv)
  else (d, sv)

/-- Source `setSnowflake()` (lines 400 to 412). -/
def setSnowflake (vnav : VnavData) (sv : SimVars) : SimVars :=
  if vnav.pathCalculating ∧ |vnav.altDeviation| < 1001 then
    if sv.snowflake ≠ 1 then { sv with snowflake := 1 } else sv
  else
    if sv.snowflake = 1 then { sv with snowflake := 0 } else sv

/-- Source `setDonut()` (lines 414 to 435). The constraint branch computes
`tan (atan x)` on a fresh value, embedded as `x`. -/
def setDonut (tanDeg : ℚ → ℚ) (d : VnavState) (vnav : VnavData)
    (sel : ModeSelector) (sv : SimVars) : SimVars :=
  if d.pathActive then
    let activeFPA :=
      if sel.currentLateralActiveState = LateralNavModeStateAPPR ∧ vnav.gpExists then
        vnav.gpAngle
      else vnav.desiredFPA
    { sv with donut := some (-vsConst * sv.groundSpeed * tanDeg activeFPA) }
  else if vnav.vnavConstraintWaypoint ∧ vnav.activeWaypointDist ≠ 0 ∧
      vnav.distanceToTod < 50 then
    let constraintDistance := vnav.constraintWaypointCumDist
    let currentDistance := vnav.activeWaypointCumDist - vnav.activeWaypointDist
    let distanceToConstraint := constraintDistance - currentDistance
    { sv with donut := d.indicatedAltitude.map (fun ia =>
        -vsConst * sv.groundSpeed *
          ((ia - vnav.vnavConstraintAltitude) / (distanceToConstraint * 6076.12))) }
  else { sv with donut := some 0 }

/-- Source `monitorValues()` (lines 474 to 482). -/
def monitorValues (d : VnavState) (sv : SimVars) : SimVars :=
  { sv with monConstraint := if d.constraintExists then 1 else 0
            monPathArm := if d.pathArm then 1 else 0
            monPathActive := if d.pathActive then 1 else 0
            monInhibit := if d.inhibitExecute then 1 else 0
            monObeying := if d.obeyingConstraint then 1 else 0 }

/-- Result of one `execute()` call. `slotCalls` counts how many times
`vnavAltSlotRequest` was invoked during the call (instrumentation used to
state the slot-reconciliation properties; it changes no behaviour). -/
structure ExecResult where
  dir : VnavState
  sv : SimVars
  events : List GEvent
  slotCalls : Nat
deriving Repr

/-- The activation block of `execute()` (lines 213 to 221).
`pathStatusSimVar` is the one-time read of the status variable. -/
def executeActivate (pathStatusSimVar : Int) (d : VnavState) (vnav : VnavData)
    (sel : ModeSelector) (sv : SimVars) : VnavState × SimVars × List GEvent :=
  if d.pathActivate then
    let st := setTargetAltitude sel sv vnav d.vnavTargetAltitude
    let d := { d with pathActive := true, pathActivate := false }
    let sv := if pathStatusSimVar ≠ 3 then { st.1 with pathStatus := 3 } else st.1
    (d, sv, st.2)
  else (d, sv, [])

/-- The status chain of `execute()` (lines 223 to 264); the last component
counts the `vnavAltSlotRequest` call of its `recalculate` branch. -/
def executeStatusChain (pathStatusSimVar : Int) (d : VnavState) (vnav : VnavData)
    (sel : ModeSelector) (sv : SimVars) : VnavState × SimVars × List GEvent × Nat :=
  if d.pathActive then
    let sv := if pathStatusSimVar ≠ 3 then { sv with pathStatus := 3 } else sv
    let st :=
      if jsRoundNeQO sel.selectedAlt2 d.vnavTargetAltitude then
        setTargetAltitude sel sv vnav d.vnavTargetAltitude
      else (sv, [])
    let d :=
      if sel.currentAltSlotIndex ≠ 2 ∧ vnav.altDeviation > 0 then
        { d with vnavAltSlot := some 2 }
      else d
    (d, st.1, st.2, 0)
  else if d.pathArm then
    (d, (if pathStatusSimVar ≠ 1 then { sv with pathStatus := 1 } else sv), [], 0)
  else if d.pathArmAbove then
    let currentVS := (jsRound sv.verticalSpeed : ℚ)
    let sv :=
      if jsLtQO currentVS d.pathFromAboveRequiredVs then
        if pathStatusSimVar ≠ 1 then { sv with pathStatus := 1 } else sv
      else
        if pathStatusSimVar ≠ 2 then { sv with pathStatus := 2 } else sv
    (d, sv, [], 0)
  else
    let sv := if pathStatusSimVar ≠ 0 then { sv with pathStatus := 0 } else sv
    let rc := recalculate d sel
    (rc.1, sv, rc.2, 1)

/-- The constraint-altitude part of the final block of `execute()` (lines 266
to 312). -/
def executeConstraint (d : VnavState) (vnav : VnavData) (sel : ModeSelector)
    (sv : SimVars) : VnavState × SimVars × List GEvent :=
  let inner :=
    if vnav.vnavConstraintWaypoint then
      let altSet2 := sel.selectedAlt2
      let st1 :=
        if jsRound altSet2 ≠ jsRound vnav.vnavConstraintAltitude ∧
            (jsTruthyStr VerticalNavModeStateALT ∨ jsTruthyStr VerticalNavModeStateALTC) then
          setTargetAltitude sel sv vnav (some vnav.vnavConstraintAltitude)
        else (sv, [])
      if sel.currentVerticalActiveState = VerticalNavModeStatePTCH ∨
          sel.currentVerticalActiveState = VerticalNavModeStateVS ∨
          sel.currentVerticalActiveState = VerticalNavModeStateFLC then
        let altSlot := sel.currentAltSlotIndex
        let altSet1 := sel.selectedAlt1
        let st2 :=
          if jsRound altSet2 ≠ jsRound vnav.vnavConstraintAltitude then
            setTargetAltitude sel st1.1 vnav (some vnav.vnavConstraintAltitude)
          else (st1.1, [])
        let d2 :=
          if vnav.segmentIsDeparture then
            let d2 := { d with obeyingConstraint := true }
            if altSet1 > altSet2 ∧ (altSlot = 1 ∨ altSlot = 3) then
              { d2 with vnavAltSlot := some 2 }
            else if altSet1 ≤ altSet2 ∧ altSlot = 2 then
              { d2 with vnavAltSlot := some 1 }
            else d2
          else
            let d2 := { d with obeyingConstraint := true }
            if altSet1 < altSet2 ∧ altSlot = 1 then
              { d2 with vnavAltSlot := some 2 }
            else if altSet1 ≥ altSet2 ∧ altSlot = 2 then
              { d2 with vnavAltSlot := some 1 }
            else d2
        (d2, st2.1, st1.2 ++ st2.2)
      else (d, st1.1, st1.2)
    else
      ({ d with vnavAltSlot := some 1 }, { sv with constraintFlag := 0 }, [])
  let evVs := if inner.2.1.vsHoldVar2 ≠ 0 then [GEvent.apVsVarSet 2 0] else []
  (inner.1, inner.2.1, inner.2.2 ++ evVs)

/-- The commanded vertical speed of the active-path branch of `execute()`
(lines 318 to 342), as a function of the derived desired vertical speed, the
derived maximum correction and the raw inputs. -/
def pathVsCommand (desiredVerticalSpeed maxCorrection vnavTargetDistance
    altDeviation : ℚ) : ℚ :=
  let raw :=
    if vnavTargetDistance < 1 ∧ vnavTargetDistance > 0 then desiredVerticalSpeed
    else if altDeviation > 10 then
      desiredVerticalSpeed - min (max (2.1 * altDeviation) 100) maxCorrection
    else if altDeviation < -10 then
      desiredVerticalSpeed + min (max (-2.1 * altDeviation) 100) (-1 * desiredVerticalSpeed)
    else desiredVerticalSpeed
  100 * (jsCeil (raw / 100) : ℚ)

/-- The active-path vertical-speed part of the final block of `execute()`
(lines 313 to 347). -/
def executePathVs (tanDeg : ℚ → ℚ) (d : VnavState) (vnav : VnavData)
    (sel : ModeSelector) (sv : SimVars) : VnavState × SimVars × List GEvent :=
  let activeFPA :=
    if sel.currentLateralActiveState = LateralNavModeStateAPPR ∧ vnav.gpExists then
      vnav.gpAngle
    else vnav.desiredFPA
  let sv := { sv with tempActiveFPA := activeFPA }
  let groundSpeed := sv.groundSpeed
  let desiredVerticalSpeed := -vsConst * groundSpeed * tanDeg activeFPA
  let maxVerticalSpeed := vsConst * groundSpeed * tanDeg 6
  let maxCorrection := maxVerticalSpeed + desiredVerticalSpeed
  let st :=
    if jsFloorNeQO sel.selectedAlt2 d.vnavTargetAltitude then
      setTargetAltitude sel sv vnav d.vnavTargetAltitude
    else (sv, [])
  let setVerticalSpeed :=
    pathVsCommand desiredVerticalSpeed maxCorrection vnav.vnavTargetDistance
      vnav.altDeviation
  let evHold :=
    if st.1.vsHoldOn ≠ 1 ∧ vnav.altDeviation > 0 then [GEvent.apPanelVsHold]
    else []
  (d, st.1, st.2 ++ [GEvent.apVsVarSet 2 setVerticalSpeed] ++ evHold)

/-- The final block of `execute()` (lines 266 to 347). -/
def executeFinal (tanDeg : ℚ → ℚ) (d : VnavState) (vnav : VnavData)
    (sel : ModeSelector) (sv : SimVars) : VnavState × SimVars × List GEvent :=
  if ¬d.pathActive ∧ d.constraintExists then executeConstraint d vnav sel sv
  else if d.pathActive then executePathVs tanDeg d vnav sel sv
  else (d, sv, [])

/-- Source `execute()` (lines 186 to 348), composed from the blocks above in
source order. `pathStatusSimVar` is read once before the execution cycle,
exactly as in the source, so later comparisons use the stale read while
writes land in `sv`. -/
def execute (tanDeg : ℚ → ℚ) (d0 : VnavState) (vnav : VnavData)
    (sel : ModeSelector) (sv0 : SimVars) : ExecResult :=
  let p1 := checkPreselector d0 vnav sv0
  let d := p1.1
  let sv := setSnowflake vnav p1.2
  let sv := setDonut tanDeg d vnav sel sv
  let sv := monitorValues d sv
  if d.inhibitExecute then ⟨d, sv, [], 0⟩
  else
    let pathStatusSimVar := sv.pathStatus
    let a := executeActivate pathStatusSimVar d vnav sel sv
    let c := executeStatusChain pathStatusSimVar a.1 vnav sel a.2.1
    let f := executeFinal tanDeg c.1 vnav sel c.2.1
    ⟨f.1, f.2.1, a.2.2 ++ c.2.2.1 ++ f.2.2, c.2.2.2⟩

/-- The intercept-constraint block at the top of `update()` (lines 44 to 52).
The inner conditional is a JS assignment
`currentVerticalArmedStates[0] = VerticalNavModeState.GP`, embedded as the
assignment followed by a truthiness test of the assigned value. -/
def interceptBlock (d : VnavState) (sel : ModeSelector) (sv : SimVars) :
    VnavState × ModeSelector × SimVars :=
  if d.pathActive = true ∧ sel.currentVerticalActiveState = VerticalNavModeStateALTC ∧
      d.inhibitExecute ≠ true then
    let sel := { sel with armed0 := VerticalNavModeStateGP }
    if jsTruthyStr VerticalNavModeStateGP then
      ({ d with inhibitExecute := false }, sel, { sv with pathStatus := 1 })
    else
      ({ d with inhibitExecute := true }, sel, { sv with pathStatus := 0 })
  else (d, sel, sv)

/-- The constraint-data block of `update()` (lines 57 to 66). -/
def constraintDataStep (d : VnavState) (vnavConstraintType : Bool) :
    VnavState × List GEvent :=
  if vnavConstraintType then ({ d with constraintExists := true }, [])
  else
    let d := { d with constraintExists := false }
    if d.obeyingConstraint then cancelConstraint d else (d, [])

/-- The new-path inhibit condition of `update()` (line 74 to 75):
`_vnavTargetAltitude > _vnav._vnavTargetAltitude` (the held target above the
new one), `_indicatedAltitude > _vnavTargetAltitude + 100` (aircraft more than
100 ft above the held target) and `_altDeviation < -100`. -/
def newPathCond (d : VnavState) (vnav : VnavData) : Bool :=
  jsGtOQ d.vnavTargetAltitude vnav.vnavTargetAltitude &&
  jsGtOOplus d.indicatedAltitude d.vnavTargetAltitude 100 &&
  decide (vnav.altDeviation < -100)

/-- The new-path block of `update()` (lines 73 to 86). The Boolean result
records the early `return` of the inhibit branch. -/
def newPathStep (d : VnavState) (vnav : VnavData) :
    VnavState × VnavData × Bool :=
  if vnav.newPath then
    if newPathCond d vnav then
      ({ d with inhibitExecute := true }, vnav, true)
    else
      ({ d with inhibitExecute := false, pathArm := false, pathArmAbove := false,
                pathActive := false, pathActivate := false },
       { vnav with newPath := false }, false)
  else (d, vnav, false)

/-- The arming chain of `update()` (lines 93 to 114) as a function of the
values it reads, returning `(pathArm, pathArmAbove)`. -/
def armFlagsCode (verticalMode : String) (currentAlt3 : ℚ)
    (vnavTargetAltitude altDeviation distanceToTod topOfDescent
      vnavTargetDistance selectedAlt1 : ℚ) (indicatedAltitude : Option ℚ)
    (lateralMode : String) (gpExists : Bool) : Bool × Bool :=
  if (verticalMode = VerticalNavModeStateALTC ∨ verticalMode = VerticalNavModeStateALT) ∧
      jsRound currentAlt3 = jsRound vnavTargetAltitude then
    (false, false)
  else if altDeviation ≤ 1000 ∧ distanceToTod < 20 ∧ distanceToTod ≥ 0 ∧
      (jsLtQO (selectedAlt1 + 75) indicatedAltitude = true ∨
        (lateralMode = LateralNavModeStateAPPR ∧ gpExists)) then
    (true, false)
  else if altDeviation > 1000 ∧ topOfDescent > vnavTargetDistance ∧
      (jsLtQO (selectedAlt1 + 75) indicatedAltitude = true ∨
        (lateralMode = LateralNavModeStateAPPR ∧ gpExists)) then
    (false, true)
  else (false, false)

/-- The arming block of `update()` (lines 89 to 115): only evaluated while the
path is not active. -/
def armingStep (d : VnavState) (vnav : VnavData) (sel : ModeSelector)
    (sv : SimVars) : VnavState :=
  if ¬d.pathActive then
    let f := armFlagsCode sel.currentVerticalActiveState sv.altLock3
      vnav.vnavTargetAltitude vnav.altDeviation vnav.distanceToTod
      vnav.topOfDescent vnav.vnavTargetDistance sel.selectedAlt1
      d.indicatedAltitude sel.currentLateralActiveState vnav.gpExists
    { d with pathArm := f.1, pathArmAbove := f.2 }
  else d

/-- The activation block of `update()` (lines 118 to 139). The from-above
branch computes `tan (atan x)` on the required flight-path angle, embedded as
`x`; the altitude difference is `undefined`-propagating. -/
def activationStep (d : VnavState) (vnav : VnavData) (groundSpeed : ℚ) :
    VnavState :=
  if d.pathArm ∧ ¬d.pathActive then
    if vnav.altDeviation > -300 ∧ vnav.altDeviation < 1000 then
      { d with vnavTargetAltitude := some vnav.vnavTargetAltitude, pathActivate := true }
    else d
  else if d.pathArmAbove ∧ ¬d.pathActive then
    let requiredVs := d.indicatedAltitude.map (fun ia =>
      -vsConst * groundSpeed *
        ((ia - vnav.vnavTargetAltitude) / (vnav.vnavTargetDistance * 6076.12)))
    let d := { d with pathFromAboveRequiredVs := requiredVs }
    if vnav.altDeviation > -300 ∧ vnav.altDeviation < 300 then
      { d with vnavTargetAltitude := some vnav.vnavTargetAltitude, pathActivate := true }
    else d
  else d

/-- The active-path block of `update()` (lines 141 to 166). The Boolean
records the early `return` of the anomalous-reversal branch (which calls
`setTargetAltitude` and `deactivate`). -/
def activeStep (d : VnavState) (vnav : VnavData) (sel : ModeSelector)
    (sv : SimVars) : VnavState × SimVars × List GEvent × Bool :=
  if d.pathActive then
    if jsRoundEqOQ d.vnavTargetAltitude vnav.vnavTargetAltitude then
      (d, sv, [], false)
    else if jsGtQOplus vnav.vnavTargetAltitude d.vnavTargetAltitude 100 then
      let st := setTargetAltitude sel sv vnav d.vnavTargetAltitude
      let de := deactivate d st.1
      (de.1, de.2, st.2, true)
    else
      let d := { d with pathArmFired := false }
      if vnav.distanceToTod > 1 then
        ({ d with pathActive := false }, sv, [], false)
      else
        ({ d with vnavTargetAltitude := some vnav.vnavTargetAltitude,
                  pathActive := false, pathActivate := true }, sv, [], false)
  else (d, sv, [], false)

/-- Which control-flow path an `update()` cycle took (instrumentation used to
state the per-branch properties; it changes no behaviour). -/
inductive VBranch
  | suspended
  | newPathInhibit
  | activeDeact
  | recompute
  | constraintFallback
  | pathRun
deriving DecidableEq, Repr

/-- Result of one `update()` cycle. `slotCalls` counts invocations of
`vnavAltSlotRequest` and `branch` records the path taken. -/
structure UpdResult where
  dir : VnavState
  vnav : VnavData
  sel : ModeSelector
  sv : SimVars
  events : List GEvent
  slotCalls : Nat
  branch : VBranch
deriving Repr

/-- Source `update()` (lines 42 to 181), composed from the blocks above in
source order. -/
def update (tanDeg : ℚ → ℚ) (d0 : VnavState) (vnav0 : VnavData)
    (sel0 : ModeSelector) (sv0 : SimVars) : UpdResult :=
  let ib := interceptBlock d0 sel0 sv0
  let d := ib.1
  let sel := ib.2.1
  let sv := ib.2.2
  if vnav0.vnavCalculating then
    let d := { d with indicatedAltitude := some sv.indicatedAltitude }
    let cd := constraintDataStep d vnav0.vnavConstraintType
    let d := cd.1
    let ev0 := cd.2
    if vnav0.pathCalculating then
      let np := newPathStep d vnav0
      if np.2.2 then
        ⟨np.1, np.2.1, sel, sv, ev0, 0, VBranch.newPathInhibit⟩
      else
        let d := np.1
        let vnav := np.2.1
        let d := armingStep d vnav sel sv
        let d := activationStep d vnav sv.groundSpeed
        let ac := activeStep d vnav sel sv
        if ac.2.2.2 then
          ⟨ac.1, vnav, sel, ac.2.1, ev0 ++ ac.2.2.1, 0, VBranch.activeDeact⟩
        else
          let ex := execute tanDeg ac.1 vnav sel ac.2.1
          let ev9 := vnavAltSlotRequest ex.dir.vnavAltSlot sel.currentAltSlotIndex
          ⟨ex.dir, vnav, sel, ex.sv, ev0 ++ ac.2.2.1 ++ ex.events ++ ev9,
           ex.slotCalls + 1, VBranch.pathRun⟩
    else if d.constraintExists = true then
      let ex := execute tanDeg d vnav0 sel sv
      let ev9 := vnavAltSlotRequest ex.dir.vnavAltSlot sel.currentAltSlotIndex
      ⟨ex.dir, vnav0, sel, ex.sv, ev0 ++ ex.events ++ ev9, ex.slotCalls + 1,
       VBranch.constraintFallback⟩
    else
      let rc := recalculate d sel
      ⟨rc.1, vnav0, sel, sv, ev0 ++ rc.2, 1, VBranch.recompute⟩
  else
    let de := deactivate d sv
    let ev9 := vnavAltSlotRequest de.1.vnavAltSlot sel.currentAltSlotIndex
    ⟨de.1, vnav0, sel, de.2, ev9, 1, VBranch.suspended⟩

/-- States of the vertical director reachable by any sequence of `update()`
cycles from the constructor state, with arbitrary upstream data, mode-selector
state and simulator variables on each cycle. -/
inductive VReach : VnavState → Prop
  | init : VReach initVnavState
  | step (d : VnavState) (tanDeg : ℚ → ℚ) (vnav : VnavData) (sel : ModeSelector)
      (sv : SimVars) : VReach d → VReach (update tanDeg d vnav sel sv).dir

end WTVnav

/-- Modelled from the spec: the signed angular difference
`Avionics.Utils.angleDiff a b` between two headings in degrees, normalized
into the half-open interval from -180 exclusive to 180 inclusive. -/
def jsAngleDiff (a b : ℚ) : ℚ :=
  let d := (b - a) - 360 * ((Int.floor ((b - a) / 360) : ℚ))
  if d > 180 then d - 360 else d

/-- Modelled from the spec: heading normalization
(`AutopilotMath.normalizeHeading`) into the interval from 0 inclusive to 360
exclusive. -/
def jsNormalizeHeading (h : ℚ) : ℚ :=
  h - 360 * ((Int.floor (h / 360) : ℚ))

namespace LNavDirector

/-- Geographic coordinates of a waypoint or of the aircraft. -/
structure Coordinates where
  lat : ℚ
  lon : ℚ
deriving DecidableEq, Repr

/-- A flight-plan waypoint with the flags and data the lateral director
reads. -/
structure Waypoint where
  coordinates : Coordinates
  isFlyover : Bool
  isRunway : Bool
  endsInDiscontinuity : Bool
  hasHold : Bool
deriving DecidableEq, Repr

/-- A managed flight plan: the waypoint sequence and the active index. -/
structure FlightPlan where
  waypoints : List Waypoint
  activeWaypointIndex : Int
deriving DecidableEq, Repr

/-- Source `getWaypoint(index)`: `undefined` outside the plan. -/
def FlightPlan.getWaypoint (p : FlightPlan) (i : Int) : Option Waypoint :=
  if h : 0 ≤ i ∧ i < p.waypoints.length then
    some (p.waypoints.get ⟨i.toNat, by omega⟩)
  else none

/-- Source `AircraftState` (fields produced by `getAircraftState`; headings,
track and bank already converted to degrees by the snapshot). -/
structure AircraftState where
  trueAirspeed : ℚ
  groundSpeed : ℚ
  magVar : ℚ
  position : Coordinates
  windSpeed : ℚ
  windDirection : ℚ
  trueHeading : ℚ
  magneticHeading : ℚ
  trueTrack : ℚ
  bankAngle : ℚ
deriving DecidableEq, Repr

/-- The geometry/holds collaborators the director calls but whose code is
outside this repository (`AutopilotMath`, `GeoMath`,
`Avionics.Utils.computeGreatCircleHeading`, the holds director): embedded as
an abstract oracle of total rational functions.  `tanRad` is the tangent of
an angle in radians and `deg2rad` the degree-to-radian factor, both abstract
because they are transcendental. -/
structure GeoOracle where
  desiredTrack : Coordinates → Coordinates → Coordinates → ℚ
  crossTrack : Coordinates → Coordinates → Coordinates → ℚ
  correctMagvar : ℚ → ℚ → ℚ
  removeMagvar : ℚ → ℚ → ℚ
  windCorrectionAngle : ℚ → ℚ → ℚ → ℚ → ℚ
  interceptAngle : ℚ → Int → ℚ
  greatCircleHeading : Coordinates → Coordinates → ℚ
  distanceMeters : Coordinates → Coordinates → ℚ
  initialBearing : Coordinates → Coordinates → ℚ
  isAbeam : ℚ → Coordinates → Coordinates → Bool
  turnRadius : ℚ → ℚ → ℚ
  tanRad : ℚ → ℚ
  deg2rad : ℚ

/-- Commands emitted by the lateral director (the heading bug set through
`Coherent.call` in `setCourse`). -/
inductive LEvent
  | headingBug (value : ℚ)
deriving DecidableEq, Repr

/-- Source `LNavState` string constants. -/
def LNavStateTRACKING : String := "TRACKING"

/-- Turn-completing lateral state constant. -/
def LNavStateTURN_COMPLETING : String := "TURN_COMPLETING"

/-- In-discontinuity lateral state constant. -/
def LNavStateIN_DISCONTINUITY : String := "IN_DISCONTINUITY"

/-- Source `FlightPlanSequencing` string constants. -/
def FlightPlanSequencingAUTO : String := "AUTO"

/-- Sequencing-inhibited constant. -/
def FlightPlanSequencingINHIBIT : String := "INHIBIT"

/-- Source `NavSensitivity.NORMAL`. -/
def NavSensitivityNORMAL : Int := 0

/-- Default `LNavDirectorOptions.minimumTrackingDistance`. -/
def minimumTrackingDistance : ℚ := 1

/-- Default `LNavDirectorOptions.maxBankAngle`. -/
def maxBankAngle : ℚ := 30

/-- Default `LNavDirectorOptions.bankRate`. -/
def bankRate : ℚ := 10

/-- Default `LNavDirectorOptions.maxTurnAnticipationAngle`. -/
def maxTurnAnticipationAngle : ℚ := 110

/-- Default `LNavDirectorOptions.degreesRollout`. -/
def degreesRollout : ℚ := 15

/-- Default `LNavDirectorOptions.maxTurnAnticipationDistance` (a function of
the plane state). -/
def maxTurnAnticipationDistance (planeState : AircraftState) : ℚ :=
  if planeState.trueAirspeed < 350 then 7 else 10

/-- The lateral director's own state plus the `L:` simulator variables it
writes (cross-track, desired track, waypoint alert, discontinuity flag). -/
structure LMachine where
  currentFlightPlanVersion : Int
  activeFlightPlan : Option FlightPlan
  sequencingMode : String
  state : String
  xtkVar : ℚ
  dtkVar : ℚ
  alertVar : Int
  discontVar : Int
deriving Repr

/-- Per-cycle environment: simulator variables read by the director and the
external flight-plan-manager/holds-director answers. `planeHeadingTrueDeg`
is the `PLANE HEADING DEGREES TRUE` read (already in degrees; the same value
the aircraft-state snapshot exposes as `trueHeading`). -/
structure LEnv where
  flightPlanVersionVar : Int
  fpmPlan0 : FlightPlan
  planeState : AircraftState
  planeHeadingTrueDeg : ℚ
  magvarVar : ℚ
  isHoldExited : Int → Bool
  holdsStateActive : Bool

/-- Source `setCourse(degreesTrue, planeState)` (lines 292 to 300): wind
correction in the true frame, then magnetic conversion, then the heading-bug
command. -/
def setCourse (geo : GeoOracle) (degreesTrue : ℚ) (planeState : AircraftState) :
    LEvent :=
  let currWindDirection := geo.removeMagvar planeState.windDirection planeState.magVar
  let windCorrection := geo.windCorrectionAngle degreesTrue planeState.trueAirspeed
    currWindDirection planeState.windSpeed
  let targetHeading := jsNormalizeHeading (degreesTrue - windCorrection)
  LEvent.headingBug (geo.correctMagvar targetHeading planeState.magVar)

/-- Source `trackLeg(legStart, legEnd, planeState, execute)` (lines 267 to
285): computes the intercept heading, writes the cross-track and
desired-track variables, and issues the course only when `execute` is set. -/
def trackLeg (geo : GeoOracle) (env : LEnv) (m : LMachine)
    (legStart legEnd : Coordinates) (planeState : AircraftState)
    (execute : Bool) : LMachine × List LEvent :=
  let dtk := geo.desiredTrack legStart legEnd planeState.position
  let xtk := geo.crossTrack legStart legEnd planeState.position
  let correctedDtk := geo.correctMagvar dtk env.magvarVar
  let m := { m with xtkVar := xtk, dtkVar := correctedDtk }
  let interceptAngle := geo.interceptAngle xtk NavSensitivityNORMAL
  let bearingToWaypoint := geo.greatCircleHeading planeState.position legEnd
  let deltaAngle := |jsAngleDiff dtk bearingToWaypoint|
  let headingToSet :=
    if deltaAngle < |interceptAngle| then jsNormalizeHeading (dtk + interceptAngle)
    else bearingToWaypoint
  if execute then (m, [setCourse geo headingToSet planeState]) else (m, [])

/-- Source `alertIfClose(planeState, distanceToActive, sequenceDistance)`
(lines 140 to 148). -/
def alertIfClose (m : LMachine) (planeState : AircraftState)
    (distanceToActive sequenceDistance : ℚ) : LMachine :=
  let fiveSecondDistance := planeState.groundSpeed / 3600 * 5
  if distanceToActive < sequenceDistance + fiveSecondDistance ∧
      m.state ≠ LNavStateIN_DISCONTINUITY ∧
      m.sequencingMode ≠ FlightPlanSequencingINHIBIT then
    { m with alertVar := 1 }
  else { m with alertVar := 0 }

/-- Source `canSequence(activeWaypoint)` (lines 129 to 131). -/
def canSequence (activeWaypoint : Option Waypoint) : Bool :=
  match activeWaypoint with
  | some w => !(w.endsInDiscontinuity || w.isRunway)
  | none => false

/-- Source `getAnticipationDistance(planeState, turnAngle)` (lines 171 to
179). -/
def getAnticipationDistance (geo : GeoOracle) (planeState : AircraftState)
    (turnAngle : ℚ) : ℚ :=
  let turnRadius := geo.turnRadius planeState.groundSpeed maxBankAngle
  let bankDiff := jsSign turnAngle * maxBankAngle - planeState.bankAngle
  let enterBankDistance := |bankDiff| / bankRate * (planeState.groundSpeed / 3600)
  let turnAnticipationAngle :=
    |min maxTurnAnticipationAngle turnAngle| * geo.deg2rad
  min (turnRadius * geo.tanRad turnAnticipationAngle / 2 + enterBankDistance)
    (maxTurnAnticipationDistance planeState)

/-- Source `delegateToHoldsDirector(activeWaypoint)` (lines 155 to 163); the
holds director itself is external, its post-update activity is the oracle
Boolean `holdsStateActive`. -/
def delegateToHoldsDirector (env : LEnv) (activeWaypoint : Option Waypoint)
    (activeIndex : Int) : Bool :=
  match activeWaypoint with
  | some w =>
    if w.hasHold ∧ ¬env.isHoldExited (activeIndex - 1) then env.holdsStateActive
    else false
  | none => false

/-- Source `sequenceToNextWaypoint(planeState, currentWaypoint)` (lines 211
to 233). `none` models the JS exception when the guard is passed with no
active flight plan. -/
def sequenceToNextWaypoint (geo : GeoOracle) (env : LEnv) (m : LMachine)
    (planeState : AircraftState) (currentWaypoint : Option Waypoint) :
    Option (LMachine × List LEvent) :=
  if m.sequencingMode ≠ FlightPlanSequencingINHIBIT ∧ planeState.groundSpeed > 25 then
    match m.activeFlightPlan with
    | none => none
    | some plan =>
      let nextWaypoint := plan.getWaypoint (plan.activeWaypointIndex + 1)
      if (match currentWaypoint with
          | some w => w.endsInDiscontinuity
          | none => false) then
        some ({ m with state := LNavStateIN_DISCONTINUITY, discontVar := 1,
                       sequencingMode := FlightPlanSequencingINHIBIT },
              [setCourse geo env.planeHeadingTrueDeg planeState])
      else if (match nextWaypoint with
          | some w => w.isRunway
          | none => false) then
        some ({ m with sequencingMode := FlightPlanSequencingINHIBIT,
                       state := LNavStateTURN_COMPLETING,
                       activeFlightPlan := some
                         { plan with activeWaypointIndex := plan.activeWaypointIndex + 1 } },
              [])
      else
        some ({ m with state := LNavStateTURN_COMPLETING,
                       activeFlightPlan := some
                         { plan with activeWaypointIndex := plan.activeWaypointIndex + 1 } },
              [])
  else some (m, [])

/-- Source `handleTracking(activeWaypoint, previousWaypoint)` (lines 68 to
100). `none` models the JS `TypeError` from dereferencing the coordinates of
a missing next waypoint (line 72) or missing previous waypoint (line 77),
both of which happen before any guard. -/
def handleTracking (geo : GeoOracle) (env : LEnv) (m : LMachine)
    (planeState : AircraftState) (activeWaypoint : Waypoint)
    (previousWaypoint : Option Waypoint) : Option (LMachine × List LEvent) :=
  match m.activeFlightPlan with
  | none => none
  | some plan =>
    match plan.getWaypoint (plan.activeWaypointIndex + 1) with
    | none => none
    | some nextWaypoint =>
      match previousWaypoint with
      | none => none
      | some prev =>
        let dtk := geo.desiredTrack prev.coordinates activeWaypoint.coordinates
          planeState.position
        let distanceToActive :=
          geo.distanceMeters planeState.position activeWaypoint.coordinates / 1852
        let m := alertIfClose m planeState distanceToActive 0
        if geo.isAbeam dtk planeState.position activeWaypoint.coordinates then
          sequenceToNextWaypoint geo env m planeState (some activeWaypoint)
        else
          let nextStartTrack :=
            geo.initialBearing activeWaypoint.coordinates nextWaypoint.coordinates
          let planeToActiveBearing :=
            geo.initialBearing planeState.position activeWaypoint.coordinates
          let anticipationDistance := getAnticipationDistance geo planeState
            (jsAngleDiff planeToActiveBearing nextStartTrack)
          let stepped :=
            if ¬nextWaypoint.isFlyover then
              let m := alertIfClose m planeState distanceToActive anticipationDistance
              if distanceToActive < anticipationDistance ∧ ¬nextWaypoint.isFlyover then
                match sequenceToNextWaypoint geo env m planeState (some activeWaypoint) with
                | some r => r
                | none => (m, [])
              else (m, [])
            else (m, [])
          let tl := trackLeg geo env stepped.1 prev.coordinates
            activeWaypoint.coordinates planeState
            (decide (distanceToActive > minimumTrackingDistance))
          some (tl.1, stepped.2 ++ tl.2)

/-- Source `handleTurnCompleting(activeWaypoint, previousWaypoint)` (lines
107 to 122). `none` models the JS `TypeError` from a missing previous
waypoint. Note the source compares the signed `angleDiff` (not its absolute
value) against the rollout threshold, and builds the turn heading from the
current true heading. -/
def handleTurnCompleting (geo : GeoOracle) (env : LEnv) (m : LMachine)
    (planeState : AircraftState) (activeWaypoint : Waypoint)
    (previousWaypoint : Option Waypoint) : Option (LMachine × List LEvent) :=
  match previousWaypoint with
  | none => none
  | some prev =>
    let dtk := geo.desiredTrack prev.coordinates activeWaypoint.coordinates
      planeState.position
    let angleDiffToTarget := jsAngleDiff planeState.trueHeading dtk
    if angleDiffToTarget < degreesRollout then
      some ({ m with state := LNavStateTRACKING }, [])
    else
      let turnDirection := jsSign angleDiffToTarget
      let targetHeading :=
        jsNormalizeHeading (planeState.trueHeading + turnDirection * 90)
      let tl := trackLeg geo env m prev.coordinates activeWaypoint.coordinates
        planeState false
      some (tl.1, tl.2 ++ [setCourse geo targetHeading planeState])

/-- Source `handleFlightPlanChanged(currentFlightPlanVersion)` (lines 185 to
204). The source's line 190 is a comparison statement with no effect and is
embedded as nothing. -/
def handleFlightPlanChanged (env : LEnv) (m : LMachine) : LMachine :=
  let m := { m with activeFlightPlan := some env.fpmPlan0 }
  let activeWaypoint := env.fpmPlan0.getWaypoint env.fpmPlan0.activeWaypointIndex
  let m :=
    if m.sequencingMode = FlightPlanSequencingINHIBIT then
      { m with sequencingMode := FlightPlanSequencingAUTO }
    else m
  let awDiscontinuity : Bool :=
    match activeWaypoint with
    | some w => w.endsInDiscontinuity
    | none => false
  let m :=
    if m.state = LNavStateIN_DISCONTINUITY ∧ awDiscontinuity = false then
      { m with discontVar := 0, state := LNavStateTRACKING }
    else m
  { m with alertVar := 0, currentFlightPlanVersion := env.flightPlanVersionVar }

/-- Source `update()` (lines 40 to 61): version resynchronization, holds
delegation, then dispatch on the lateral state. `none` models a JS exception
escaping the cycle. -/
def update (geo : GeoOracle) (env : LEnv) (m : LMachine) :
    Option (LMachine × List LEvent) :=
  let m :=
    if m.currentFlightPlanVersion ≠ env.flightPlanVersionVar then
      handleFlightPlanChanged env m
    else m
  match m.activeFlightPlan with
  | none => some (m, [])
  | some plan =>
    let previousWaypoint := plan.getWaypoint (plan.activeWaypointIndex - 1)
    let activeWaypoint := plan.getWaypoint plan.activeWaypointIndex
    if delegateToHoldsDirector env activeWaypoint plan.activeWaypointIndex then
      some (m, [])
    else
      match activeWaypoint with
      | none => some (m, [])
      | some aw =>
        if m.state = LNavStateTRACKING then
          handleTracking geo env m env.planeState aw previousWaypoint
        else if m.state = LNavStateTURN_COMPLETING then
          handleTurnCompleting geo env m env.planeState aw previousWaypoint
        else some (m, [])

end LNavDirector

/-!
Claim-side definitions: these follow the wording of the specification
sentences under check (not the source), for comparison against the embedded
code.
-/

/-- Claim wording of the arming rule (C2): identical to the source chain
except that the altitude condition reads "selected altitude is at least 75 ft
below current indicated altitude". Returns `(armFromBelow, armFromAbove)`. -/
def armFlagsClaim (verticalMode : String) (currentAlt3 : ℚ)
    (vnavTargetAltitude altDeviation distanceToTod topOfDescent
      vnavTargetDistance selectedAlt1 indicatedAltitude : ℚ)
    (lateralMode : String) (gpExists : Bool) : Bool × Bool :=
  if (verticalMode = VerticalNavModeStateALTC ∨ verticalMode = VerticalNavModeStateALT) ∧
      jsRound currentAlt3 = jsRound vnavTargetAltitude then
    (false, false)
  else if altDeviation ≤ 1000 ∧ 0 ≤ distanceToTod ∧ distanceToTod < 20 ∧
      (selectedAlt1 ≤ indicatedAltitude - 75 ∨
        (lateralMode = LateralNavModeStateAPPR ∧ gpExists)) then
    (true, false)
  else if altDeviation > 1000 ∧ topOfDescent > vnavTargetDistance ∧
      (selectedAlt1 ≤ indicatedAltitude - 75 ∨
        (lateralMode = LateralNavModeStateAPPR ∧ gpExists)) then
    (false, true)
  else (false, false)

/-- Claim wording of the new-path inhibit condition (C4): new target more
than 100 ft below the held target, aircraft more than 100 ft above the new
target, and deviation still beyond 100 ft. -/
def newPathCondClaim (heldTarget newTarget indicatedAltitude altDeviation : ℚ) :
    Bool :=
  decide (heldTarget - newTarget > 100) &&
  decide (indicatedAltitude > newTarget + 100) &&
  decide (altDeviation < -100)

/-- Claim wording of the commanded path vertical speed (C8): correction with
gain 2.1, floor 100, cap `maxCorrection` in both directions, rounded up to
the nearest 100 ft/min. -/
def vsCommandClaim (desiredVS maxCorrection dev : ℚ) : ℚ :=
  let raw :=
    if dev > 10 then desiredVS - min (max (2.1 * dev) 100) maxCorrection
    else if dev < -10 then desiredVS + min (max (-2.1 * dev) 100) maxCorrection
    else desiredVS
  100 * (jsCeil (raw / 100) : ℚ)

/-- Amended wording of the commanded path vertical speed (C8): as the claim,
except that the below-path correction is capped at the negated desired
vertical speed (so the corrected command never climbs past level). -/
def vsCommandAmended (desiredVS maxCorrection dev : ℚ) : ℚ :=
  let raw :=
    if dev > 10 then desiredVS - min (max (2.1 * dev) 100) maxCorrection
    else if dev < -10 then desiredVS + min (max (-2.1 * dev) 100) (-1 * desiredVS)
    else desiredVS
  100 * (jsCeil (raw / 100) : ℚ)

/-!
Concrete fixtures used by witnesses and counterexamples.
-/

namespace LNavDirector

/-- A geometry oracle whose desired track is the given constant, whose
magnetic-variation and wind corrections are identities, and whose remaining
answers are zero. -/
def geoId (dtkValue : ℚ) : GeoOracle :=
  { desiredTrack := fun _ _ _ => dtkValue
    crossTrack := fun _ _ _ => 0
    correctMagvar := fun h _ => h
    removeMagvar := fun h _ => h
    windCorrectionAngle := fun _ _ _ _ => 0
    interceptAngle := fun _ _ => 0
    greatCircleHeading := fun _ _ => 0
    distanceMeters := fun _ _ => 0
    initialBearing := fun _ _ => 0
    isAbeam := fun _ _ _ => false
    turnRadius := fun _ _ => 0
    tanRad := fun _ => 0
    deg2rad := 0 }

/-- A plain waypoint at the origin with every flag off. -/
def wptPlain : Waypoint :=
  { coordinates := { lat := 0, lon := 0 }
    isFlyover := false
    isRunway := false
    endsInDiscontinuity := false
    hasHold := false }

/-- A two-waypoint plan with the first waypoint active (no previous
waypoint). -/
def planTwo : FlightPlan :=
  { waypoints := [wptPlain, wptPlain], activeWaypointIndex := 0 }

/-- A three-waypoint plan with the middle waypoint active. -/
def planThree : FlightPlan :=
  { waypoints := [wptPlain, wptPlain, wptPlain], activeWaypointIndex := 1 }

/-- A concrete aircraft state heading 100 degrees true at 100 kt. -/
def planeBase : AircraftState :=
  { trueAirspeed := 200
    groundSpeed := 100
    magVar := 0
    position := { lat := 0, lon := 0 }
    windSpeed := 0
    windDirection := 0
    trueHeading := 100
    magneticHeading := 100
    trueTrack := 100
    bankAngle := 0 }

/-- A concrete environment: plan version 0, the two-waypoint plan in the
flight-plan manager, no hold activity. -/
def envBase : LEnv :=
  { flightPlanVersionVar := 0
    fpmPlan0 := planTwo
    planeState := planeBase
    planeHeadingTrueDeg := 100
    magvarVar := 0
    isHoldExited := fun _ => true
    holdsStateActive := false }

/-- A tracking director on the three-waypoint plan. -/
def lnavBase : LMachine :=
  { currentFlightPlanVersion := 0
    activeFlightPlan := some planThree
    sequencingMode := FlightPlanSequencingAUTO
    state := LNavStateTRACKING
    xtkVar := 0
    dtkVar := 0
    alertVar := 0
    discontVar := 0 }

/-- A turn-completing director on the three-waypoint plan. -/
def lnavTurnCompleting : LMachine :=
  { lnavBase with state := LNavStateTURN_COMPLETING }

/-- A tracking director on the two-waypoint plan (active waypoint first in
the plan, so there is no previous waypoint). -/
def lnavTrackingNoPrev : LMachine :=
  { lnavBase with activeFlightPlan := some planTwo }

end LNavDirector

namespace WTVnav

/-- A neutral tangent stand-in for evaluation fixtures. -/
def tanZero : ℚ → ℚ := fun _ => 0

/-- Baseline upstream data: calculating, path valid, no constraint, the
aircraft 500 ft from the path, 10 NM from the descent point. -/
def baseVnav : VnavData :=
  { vnavCalculating := true
    vnavConstraintType := false
    pathCalculating := true
    newPath := false
    vnavTargetAltitude := 4000
    vnavTargetDistance := 5
    topOfDescent := 30
    distanceToTod := 10
    altDeviation := 500
    gpExists := false
    gpAngle := 0
    desiredFPA := 3
    segmentIsDeparture := false
    vnavConstraintWaypoint := false
    vnavConstraintAltitude := 0
    constraintWaypointCumDist := 0
    activeWaypointCumDist := 0
    activeWaypointDist := 0
    altitude := 5000 }

/-- Baseline mode-selector view: pitch mode, NAV lateral, selected altitude
3000 below the aircraft. -/
def baseSel : ModeSelector :=
  { currentVerticalActiveState := VerticalNavModeStatePTCH
    armed0 := ""
    currentLateralActiveState := LateralNavModeStateNAV
    selectedAlt1 := 3000
    selectedAlt2 := 4000
    currentAltSlotIndex := 1 }

/-- Baseline simulator variables. -/
def baseSv : SimVars :=
  { pathStatus := 0
    snowflake := 0
    donut := some 0
    constraintFlag := 0
    todAlert := 0
    tempActiveFPA := 0
    indicatedAltitude := 5000
    altLock3 := 3000
    altLock1 := 3000
    groundSpeed := 100
    verticalSpeed := 0
    vsHoldVar2 := 0
    vsHoldOn := 1
    monConstraint := 0
    monPathArm := 0
    monPathActive := 0
    monInhibit := 0
    monObeying := 0 }

/-- A director state with every flag raised, used to probe `deactivate` and
`failed`. -/
def cexAllOn : VnavState :=
  { vnavTargetAltitude := some 5000
    inhibitExecute := true
    constraintExists := true
    pathArm := true
    pathArmAbove := true
    pathArmFired := true
    pathFromAboveRequiredVs := some (-1200)
    pathActive := true
    pathActivate := true
    obeyingConstraint := true
    vnavAltSlot := some 2
    indicatedAltitude := some 9000 }

/-- Director state holding target 5000 with desired preselector slot 2. -/
def cexSlotDir : VnavState :=
  { initVnavState with vnavTargetAltitude := some 5000, vnavAltSlot := some 2 }

/-- Director state holding target 5000. -/
def cexHeldDir : VnavState :=
  { initVnavState with vnavTargetAltitude := some 5000 }

/-- Director state armed from above and holding target 5000. -/
def cexArmedAboveDir : VnavState :=
  { initVnavState with pathArmAbove := true, vnavTargetAltitude := some 5000 }

/-- Director state with the path active on target 4000. -/
def cexActiveDir : VnavState :=
  { initVnavState with pathActive := true, vnavTargetAltitude := some 4000 }

/-- Director state with the path active (no held target). -/
def cexActiveBareDir : VnavState :=
  { initVnavState with pathActive := true }

/-- Upstream data signalling a new path at 4000 with the aircraft well above
it. -/
def cexNewPathVnav : VnavData :=
  { baseVnav with newPath := true, vnavTargetAltitude := 4000, altDeviation := -200 }

/-- Upstream data signalling a new path only 50 ft below the held target. -/
def cexNewPathNearVnav : VnavData :=
  { baseVnav with newPath := true, vnavTargetAltitude := 4950, altDeviation := -200 }

/-- Upstream data with the aircraft 1000 ft below the active path. -/
def cexDeepBelowVnav : VnavData :=
  { baseVnav with altDeviation := -1000 }

/-- Simulator variables indicating altitude 5200. -/
def cexIndicated5200Sv : SimVars :=
  { baseSv with indicatedAltitude := 5200 }

/-- Mode-selector view with the selected altitude exactly 75 ft below the
indicated altitude 5000. -/
def cexBoundarySel : ModeSelector :=
  { baseSel with selectedAlt1 := 4925 }

/-- Mode-selector view with the selected altitude 100 ft below the indicated
altitude 5000. -/
def witnessSel : ModeSelector :=
  { baseSel with selectedAlt1 := 4900 }

/-- Mode-selector view in altitude-capture mode. -/
def cexAltcSel : ModeSelector :=
  { baseSel with currentVerticalActiveState := VerticalNavModeStateALTC }

/-- A tangent stand-in realizing a desired vertical speed of -1000 ft/min and
a maximum vertical speed of 3000 ft/min at ground speed 100 kt. -/
def cexTan : ℚ → ℚ := fun x =>
  if x = 3 then 100000000 / 1012686667
  else if x = 6 then 300000000 / 1012686667
  else 0

/-!
Structural lemmas about the update-cycle phases.
-/

/-- The intercept-constraint block is inert while the path is not active. -/
theorem interceptBlock_inactive (d : VnavState) (sel : ModeSelector) (sv : SimVars)
    (h : d.pathActive = false) : interceptBlock d sel sv = (d, sel, sv) := by
  unfold interceptBlock
  rw [if_neg]
  simp [h]

/-- The intercept-constraint block changes only the inhibit flag, the armed
slot and the path-status variable. -/
theorem interceptBlock_shape (d : VnavState) (sel : ModeSelector) (sv : SimVars) :
    ∃ ih ar st, interceptBlock d sel sv =
      ({ d with inhibitExecute := ih }, { sel with armed0 := ar },
       { sv with pathStatus := st }) := by
  simp only [interceptBlock]
  split
  · split
    · exact ⟨_, _, _, rfl⟩
    · exact ⟨_, _, _, rfl⟩
  · exact ⟨d.inhibitExecute, sel.armed0, sv.pathStatus, rfl⟩

/-- The constraint-data block changes only the constraint flag, the desired
slot and the obeying flag. -/
theorem constraintDataStep_shape (d : VnavState) (ct : Bool) :
    ∃ ce slot ob ev, constraintDataStep d ct =
      ({ d with constraintExists := ce, vnavAltSlot := slot,
                obeyingConstraint := ob }, ev) := by
  simp only [constraintDataStep, cancelConstraint]
  split
  · exact ⟨_, d.vnavAltSlot, d.obeyingConstraint, _, rfl⟩
  · split
    · exact ⟨_, _, _, _, rfl⟩
    · exact ⟨_, d.vnavAltSlot, d.obeyingConstraint, _, rfl⟩

/-- `checkPreselector` changes only the alert-fired flag and the alert
simulator variable. -/
theorem checkPreselector_shape (d : VnavState) (vnav : VnavData) (sv : SimVars) :
    ∃ b t, checkPreselector d vnav sv =
      ({ d with pathArmFired := b }, { sv with todAlert := t }) := by
  simp only [checkPreselector]
  split
  · split
    · exact ⟨_, _, rfl⟩
    · exact ⟨d.pathArmFired, sv.todAlert, rfl⟩
  · exact ⟨d.pathArmFired, sv.todAlert, rfl⟩

/-- The activation block changes only the held target, the activate flag and
the required-interception vertical speed. -/
theorem activationStep_shape (d : VnavState) (vnav : VnavData) (gs : ℚ) :
    ∃ tgt act rvs, activationStep d vnav gs =
      { d with vnavTargetAltitude := tgt, pathActivate := act,
               pathFromAboveRequiredVs := rvs } := by
  simp only [activationStep]
  split
  · split
    · exact ⟨_, _, d.pathFromAboveRequiredVs, rfl⟩
    · exact ⟨d.vnavTargetAltitude, d.pathActivate, d.pathFromAboveRequiredVs, rfl⟩
  · split
    · split
      · exact ⟨_, _, _, rfl⟩
      · exact ⟨d.vnavTargetAltitude, d.pathActivate, _, rfl⟩
    · exact ⟨d.vnavTargetAltitude, d.pathActivate, d.pathFromAboveRequiredVs, rfl⟩

/-- The active-path block is inert while the path is not active. -/
theorem activeStep_inactive (d : VnavState) (vnav : VnavData) (sel : ModeSelector)
    (sv : SimVars) (h : d.pathActive = false) :
    activeStep d vnav sel sv = (d, sv, [], false) := by
  unfold activeStep
  rw [if_neg]
  simp [h]

/-- The activation block never changes `pathArm`. -/
theorem executeActivate_pathArm (ps : Int) (d : VnavState) (vnav : VnavData)
    (sel : ModeSelector) (sv : SimVars) :
    (executeActivate ps d vnav sel sv).1.pathArm = d.pathArm := by
  simp only [executeActivate]
  split <;> simp

/-- The activation block never changes `pathArmAbove`. -/
theorem executeActivate_pathArmAbove (ps : Int) (d : VnavState) (vnav : VnavData)
    (sel : ModeSelector) (sv : SimVars) :
    (executeActivate ps d vnav sel sv).1.pathArmAbove = d.pathArmAbove := by
  simp only [executeActivate]
  split <;> simp

/-- The activation block never changes `inhibitExecute`. -/
theorem executeActivate_inhibit (ps : Int) (d : VnavState) (vnav : VnavData)
    (sel : ModeSelector) (sv : SimVars) :
    (executeActivate ps d vnav sel sv).1.inhibitExecute = d.inhibitExecute := by
  simp only [executeActivate]
  split <;> simp

/-- The status chain never changes the value of `pathArm` (its `recalculate`
branch clears a flag its guard already knows to be clear). -/
theorem executeStatusChain_pathArm (ps : Int) (d : VnavState) (vnav : VnavData)
    (sel : ModeSelector) (sv : SimVars) :
    (executeStatusChain ps d vnav sel sv).1.pathArm = d.pathArm := by
  simp only [executeStatusChain, recalculate]
  repeat' split
  all_goals simp_all

/-- The status chain never changes the value of `pathArmAbove`. -/
theorem executeStatusChain_pathArmAbove (ps : Int) (d : VnavState) (vnav : VnavData)
    (sel : ModeSelector) (sv : SimVars) :
    (executeStatusChain ps d vnav sel sv).1.pathArmAbove = d.pathArmAbove := by
  simp only [executeStatusChain, recalculate]
  repeat' split
  all_goals simp_all

/-- The status chain never changes `inhibitExecute`. -/
theorem executeStatusChain_inhibit (ps : Int) (d : VnavState) (vnav : VnavData)
    (sel : ModeSelector) (sv : SimVars) :
    (executeStatusChain ps d vnav sel sv).1.inhibitExecute = d.inhibitExecute := by
  simp only [executeStatusChain, recalculate]
  repeat' split
  all_goals simp_all

/-- The status chain calls `vnavAltSlotRequest` at most once. -/
theorem executeStatusChain_count_le_one (ps : Int) (d : VnavState) (vnav : VnavData)
    (sel : ModeSelector) (sv : SimVars) :
    (executeStatusChain ps d vnav sel sv).2.2.2 ≤ 1 := by
  simp only [executeStatusChain, recalculate]
  repeat' split
  all_goals simp_all

/-- The final block never changes `pathArm`. -/
theorem executeFinal_pathArm (tanDeg : ℚ → ℚ) (d : VnavState) (vnav : VnavData)
    (sel : ModeSelector) (sv : SimVars) :
    (executeFinal tanDeg d vnav sel sv).1.pathArm = d.pathArm := by
  simp only [executeFinal, executeConstraint, executePathVs]
  repeat' split
  all_goals simp_all

/-- The final block never changes `pathArmAbove`. -/
theorem executeFinal_pathArmAbove (tanDeg : ℚ → ℚ) (d : VnavState) (vnav : VnavData)
    (sel : ModeSelector) (sv : SimVars) :
    (executeFinal tanDeg d vnav sel sv).1.pathArmAbove = d.pathArmAbove := by
  simp only [executeFinal, executeConstraint, executePathVs]
  repeat' split
  all_goals simp_all

/-- The final block never changes `inhibitExecute`. -/
theorem executeFinal_inhibit (tanDeg : ℚ → ℚ) (d : VnavState) (vnav : VnavData)
    (sel : ModeSelector) (sv : SimVars) :
    (executeFinal tanDeg d vnav sel sv).1.inhibitExecute = d.inhibitExecute := by
  simp only [executeFinal, executeConstraint, executePathVs]
  repeat' split
  all_goals simp_all

/-- `execute` never changes the value of `pathArm`. -/
theorem execute_pathArm (tanDeg : ℚ → ℚ) (d : VnavState) (vnav : VnavData)
    (sel : ModeSelector) (sv : SimVars) :
    (execute tanDeg d vnav sel sv).dir.pathArm = d.pathArm := by
  obtain ⟨b, sv2, hcp⟩ := checkPreselector_shape d vnav sv
  simp only [execute, hcp]
  split
  · rfl
  · simp [executeFinal_pathArm, executeStatusChain_pathArm, executeActivate_pathArm]

/-- `execute` never changes the value of `pathArmAbove`. -/
theorem execute_pathArmAbove (tanDeg : ℚ → ℚ) (d : VnavState) (vnav : VnavData)
    (sel : ModeSelector) (sv : SimVars) :
    (execute tanDeg d vnav sel sv).dir.pathArmAbove = d.pathArmAbove := by
  obtain ⟨b, sv2, hcp⟩ := checkPreselector_shape d vnav sv
  simp only [execute, hcp]
  split
  · rfl
  · simp [executeFinal_pathArmAbove, executeStatusChain_pathArmAbove,
      executeActivate_pathArmAbove]

/-- `execute` never changes `inhibitExecute`. -/
theorem execute_inhibit (tanDeg : ℚ → ℚ) (d : VnavState) (vnav : VnavData)
    (sel : ModeSelector) (sv : SimVars) :
    (execute tanDeg d vnav sel sv).dir.inhibitExecute = d.inhibitExecute := by
  obtain ⟨b, sv2, hcp⟩ := checkPreselector_shape d vnav sv
  simp only [execute, hcp]
  split
  · rfl
  · simp [executeFinal_inhibit, executeStatusChain_inhibit, executeActivate_inhibit]

/-- `execute` calls `vnavAltSlotRequest` at most once. -/
theorem execute_slotCalls_le_one (tanDeg : ℚ → ℚ) (d : VnavState) (vnav : VnavData)
    (sel : ModeSelector) (sv : SimVars) :
    (execute tanDeg d vnav sel sv).slotCalls ≤ 1 := by
  obtain ⟨b, sv2, hcp⟩ := checkPreselector_shape d vnav sv
  simp only [execute, hcp]
  split
  · simp
  · exact executeStatusChain_count_le_one _ _ _ _ _

/-- The constraint-data block never changes `pathArm`. -/
theorem constraintDataStep_pathArm (d : VnavState) (ct : Bool) :
    (constraintDataStep d ct).1.pathArm = d.pathArm := by
  obtain ⟨ce, slot, ob, ev, h⟩ := constraintDataStep_shape d ct
  rw [h]

/-- The constraint-data block never changes `pathArmAbove`. -/
theorem constraintDataStep_pathArmAbove (d : VnavState) (ct : Bool) :
    (constraintDataStep d ct).1.pathArmAbove = d.pathArmAbove := by
  obtain ⟨ce, slot, ob, ev, h⟩ := constraintDataStep_shape d ct
  rw [h]

/-- The constraint-data block never changes `pathActive`. -/
theorem constraintDataStep_pathActive (d : VnavState) (ct : Bool) :
    (constraintDataStep d ct).1.pathActive = d.pathActive := by
  obtain ⟨ce, slot, ob, ev, h⟩ := constraintDataStep_shape d ct
  rw [h]

/-- The constraint-data block never changes the held target. -/
theorem constraintDataStep_target (d : VnavState) (ct : Bool) :
    (constraintDataStep d ct).1.vnavTargetAltitude = d.vnavTargetAltitude := by
  obtain ⟨ce, slot, ob, ev, h⟩ := constraintDataStep_shape d ct
  rw [h]

/-- The constraint-data block never changes the stored indicated altitude. -/
theorem constraintDataStep_indicated (d : VnavState) (ct : Bool) :
    (constraintDataStep d ct).1.indicatedAltitude = d.indicatedAltitude := by
  obtain ⟨ce, slot, ob, ev, h⟩ := constraintDataStep_shape d ct
  rw [h]

/-- The constraint-data block never changes `inhibitExecute`. -/
theorem constraintDataStep_inhibit (d : VnavState) (ct : Bool) :
    (constraintDataStep d ct).1.inhibitExecute = d.inhibitExecute := by
  obtain ⟨ce, slot, ob, ev, h⟩ := constraintDataStep_shape d ct
  rw [h]

/-- The constraint-data block never changes `pathActivate`. -/
theorem constraintDataStep_pathActivate (d : VnavState) (ct : Bool) :
    (constraintDataStep d ct).1.pathActivate = d.pathActivate := by
  obtain ⟨ce, slot, ob, ev, h⟩ := constraintDataStep_shape d ct
  rw [h]

/-- The arming chain never sets both arming flags. -/
theorem armFlagsCode_not_both (vm : String) (a3 t dev tod top td s1 : ℚ)
    (ia : Option ℚ) (lm : String) (gp : Bool) :
    ¬((armFlagsCode vm a3 t dev tod top td s1 ia lm gp).1 = true ∧
      (armFlagsCode vm a3 t dev tod top td s1 ia lm gp).2 = true) := by
  simp only [armFlagsCode]
  repeat' split
  all_goals simp

/-- Mutual exclusion of the arming flags is preserved by the new-path
block. -/
theorem newPathStep_excl (d : VnavState) (v : VnavData)
    (h : ¬(d.pathArm = true ∧ d.pathArmAbove = true)) :
    ¬((newPathStep d v).1.pathArm = true ∧ (newPathStep d v).1.pathArmAbove = true) := by
  simp only [newPathStep]
  repeat' split
  all_goals simp_all

/-- Mutual exclusion of the arming flags is established or preserved by the
arming block. -/
theorem armingStep_excl (d : VnavState) (vnav : VnavData) (sel : ModeSelector)
    (sv : SimVars) (h : ¬(d.pathArm = true ∧ d.pathArmAbove = true)) :
    ¬((armingStep d vnav sel sv).pathArm = true ∧
      (armingStep d vnav sel sv).pathArmAbove = true) := by
  simp only [armingStep]
  split
  · have hn := armFlagsCode_not_both sel.currentVerticalActiveState sv.altLock3
      vnav.vnavTargetAltitude vnav.altDeviation vnav.distanceToTod
      vnav.topOfDescent vnav.vnavTargetDistance sel.selectedAlt1
      d.indicatedAltitude sel.currentLateralActiveState vnav.gpExists
    simpa using hn
  · exact h

/-- Mutual exclusion of the arming flags is preserved by the activation
block. -/
theorem activationStep_excl (d : VnavState) (vnav : VnavData) (gs : ℚ)
    (h : ¬(d.pathArm = true ∧ d.pathArmAbove = true)) :
    ¬((activationStep d vnav gs).pathArm = true ∧
      (activationStep d vnav gs).pathArmAbove = true) := by
  obtain ⟨t, a, r, hs⟩ := activationStep_shape d vnav gs
  rw [hs]
  simpa using h

/-- Mutual exclusion of the arming flags is preserved by the active-path
block. -/
theorem activeStep_excl (d : VnavState) (vnav : VnavData) (sel : ModeSelector)
    (sv : SimVars) (h : ¬(d.pathArm = true ∧ d.pathArmAbove = true)) :
    ¬((activeStep d vnav sel sv).1.pathArm = true ∧
      (activeStep d vnav sel sv).1.pathArmAbove = true) := by
  simp only [activeStep, deactivate]
  repeat' split
  all_goals simp_all

/-- Mutual exclusion of the arming flags is preserved by one full `update`
cycle. -/
theorem update_excl_step (tanDeg : ℚ → ℚ) (d : VnavState) (vnav : VnavData)
    (sel : ModeSelector) (sv : SimVars)
    (h : ¬(d.pathArm = true ∧ d.pathArmAbove = true)) :
    ¬((update tanDeg d vnav sel sv).dir.pathArm = true ∧
      (update tanDeg d vnav sel sv).dir.pathArmAbove = true) := by
  obtain ⟨ih, ar, st, hib⟩ := interceptBlock_shape d sel sv
  simp only [update, hib]
  split
  · -- calculating
    split
    · -- path calculating
      split
      · -- new-path inhibit return
        apply newPathStep_excl
        simp only [constraintDataStep_pathArm, constraintDataStep_pathArmAbove]
        simpa using h
      · split
        · -- anomalous active-path deactivation return
          apply activeStep_excl
          apply activationStep_excl
          apply armingStep_excl
          apply newPathStep_excl
          simp only [constraintDataStep_pathArm, constraintDataStep_pathArmAbove]
          simpa using h
        · -- full path run
          simp only [execute_pathArm, execute_pathArmAbove]
          apply activeStep_excl
          apply activationStep_excl
          apply armingStep_excl
          apply newPathStep_excl
          simp only [constraintDataStep_pathArm, constraintDataStep_pathArmAbove]
          simpa using h
    · split
      · -- constraint fallback
        simp only [execute_pathArm, execute_pathArmAbove]
        simp only [constraintDataStep_pathArm, constraintDataStep_pathArmAbove]
        simpa using h
      · -- full recompute
        simp [recalculate]
  · -- suspended
    simp [deactivate]

end WTVnav

/-- The early-return flag of the new-path block holds exactly when a new
path is signalled and the inhibit condition holds. -/
theorem WTVnav.newPathStep_early_iff (d2 : WTVnav.VnavState) (v : WTVnav.VnavData) :
    (WTVnav.newPathStep d2 v).2.2 = true ↔
      (v.newPath = true ∧ WTVnav.newPathCond d2 v = true) := by
  simp only [WTVnav.newPathStep]
  repeat' split
  all_goals simp_all

/-- On the early return, the new-path block only sets the inhibit flag and
leaves the upstream data untouched. -/
theorem WTVnav.newPathStep_early_spec (d2 : WTVnav.VnavState) (v : WTVnav.VnavData)
    (h : (WTVnav.newPathStep d2 v).2.2 = true) :
    (WTVnav.newPathStep d2 v).1 = { d2 with inhibitExecute := true } ∧
    (WTVnav.newPathStep d2 v).2.1 = v := by
  simp only [WTVnav.newPathStep] at h ⊢
  repeat' split
  all_goals simp_all

/-- When a new path is accepted, the block clears the inhibit, armed, active
and activate flags and clears the new-path signal. -/
theorem WTVnav.newPathStep_accept_spec (d2 : WTVnav.VnavState) (v : WTVnav.VnavData)
    (hnew : v.newPath = true) (h : (WTVnav.newPathStep d2 v).2.2 = false) :
    (WTVnav.newPathStep d2 v).1 =
      { d2 with inhibitExecute := false, pathArm := false, pathArmAbove := false,
                pathActive := false, pathActivate := false } ∧
    (WTVnav.newPathStep d2 v).2.1 = { v with newPath := false } := by
  simp only [WTVnav.newPathStep] at h ⊢
  repeat' split
  all_goals simp_all

/-- The constraint-data block does not affect the new-path inhibit
condition. -/
theorem WTVnav.newPathCond_constraintData (x : WTVnav.VnavState) (ct : Bool)
    (v : WTVnav.VnavData) :
    WTVnav.newPathCond (WTVnav.constraintDataStep x ct).1 v =
      WTVnav.newPathCond x v := by
  obtain ⟨ce, slot, ob, ev, h⟩ := WTVnav.constraintDataStep_shape x ct
  rw [h]
  simp [WTVnav.newPathCond]

/-- The arming block never changes `inhibitExecute`. -/
theorem WTVnav.armingStep_inhibit (d : WTVnav.VnavState) (vnav : WTVnav.VnavData)
    (sel : WTVnav.ModeSelector) (sv : WTVnav.SimVars) :
    (WTVnav.armingStep d vnav sel sv).inhibitExecute = d.inhibitExecute := by
  simp only [WTVnav.armingStep]
  split <;> simp

/-- The activation block never changes `inhibitExecute`. -/
theorem WTVnav.activationStep_inhibit (d : WTVnav.VnavState) (vnav : WTVnav.VnavData)
    (gs : ℚ) :
    (WTVnav.activationStep d vnav gs).inhibitExecute = d.inhibitExecute := by
  obtain ⟨t, a, r, hs⟩ := WTVnav.activationStep_shape d vnav gs
  rw [hs]

/-- The active-path block never changes `inhibitExecute`. -/
theorem WTVnav.activeStep_inhibit (d : WTVnav.VnavState) (vnav : WTVnav.VnavData)
    (sel : WTVnav.ModeSelector) (sv : WTVnav.SimVars) :
    (WTVnav.activeStep d vnav sel sv).1.inhibitExecute = d.inhibitExecute := by
  simp only [WTVnav.activeStep, WTVnav.deactivate, WTVnav.setTargetAltitude]
  repeat' split
  all_goals simp_all

/-- The active-path block never changes `pathActive` when it is false. -/
theorem WTVnav.activationStep_pathActive (d : WTVnav.VnavState)
    (vnav : WTVnav.VnavData) (gs : ℚ) :
    (WTVnav.activationStep d vnav gs).pathActive = d.pathActive := by
  obtain ⟨t, a, r, hs⟩ := WTVnav.activationStep_shape d vnav gs
  rw [hs]

/-- The arming block never changes `pathActive`. -/
theorem WTVnav.armingStep_pathActive (d : WTVnav.VnavState) (vnav : WTVnav.VnavData)
    (sel : WTVnav.ModeSelector) (sv : WTVnav.SimVars) :
    (WTVnav.armingStep d vnav sel sv).pathActive = d.pathActive := by
  simp only [WTVnav.armingStep]
  split <;> simp

/-!
Claim theorems.
-/

/-- C1 (amended): in every state of the vertical director reachable by any
sequence of update cycles, at most one of the two arming flags
(armed-from-below, armed-from-above) is true; the claimed exclusivity with
the path-active flag does not hold, because the cycle that activates the path
leaves the arming flag that caused the activation set. -/
theorem vnav_reachable_arming_flags_exclusive (d : WTVnav.VnavState)
    (h : WTVnav.VReach d) : ¬(d.pathArm = true ∧ d.pathArmAbove = true) := by
  induction h with
  | init => simp [WTVnav.initVnavState]
  | step d tanDeg vnav sel sv hr ihp =>
    exact WTVnav.update_excl_step tanDeg d vnav sel sv ihp

/-- Witness for C1: the theorem applied to the constructor state. -/
theorem vnav_reachable_arming_flags_exclusive_witness :
    ¬(WTVnav.initVnavState.pathArm = true ∧
      WTVnav.initVnavState.pathArmAbove = true) :=
  vnav_reachable_arming_flags_exclusive WTVnav.initVnavState WTVnav.VReach.init

/-- Counterexample for C1 as stated: one update cycle from the constructor
state, with the path armable and the deviation inside the activation window,
reaches a state in which the path is active and the armed-from-below flag is
still set, so the three flags are not mutually exclusive and an active path
does not imply cleared arming flags. -/
theorem vnav_active_path_keeps_arming_flag_counterexample :
    WTVnav.VReach (WTVnav.update WTVnav.tanZero WTVnav.initVnavState
      WTVnav.baseVnav WTVnav.baseSel WTVnav.baseSv).dir ∧
    (WTVnav.update WTVnav.tanZero WTVnav.initVnavState WTVnav.baseVnav
      WTVnav.baseSel WTVnav.baseSv).dir.pathActive = true ∧
    (WTVnav.update WTVnav.tanZero WTVnav.initVnavState WTVnav.baseVnav
      WTVnav.baseSel WTVnav.baseSv).dir.pathArm = true := by
  refine ⟨WTVnav.VReach.step _ _ _ _ _ WTVnav.VReach.init, ?_, ?_⟩ <;>
    norm_num [WTVnav.update, WTVnav.interceptBlock, WTVnav.constraintDataStep,
      WTVnav.cancelConstraint, WTVnav.newPathStep, WTVnav.newPathCond,
      WTVnav.armingStep, WTVnav.armFlagsCode, WTVnav.activationStep,
      WTVnav.activeStep, WTVnav.execute, WTVnav.executeActivate,
      WTVnav.executeStatusChain, WTVnav.executeConstraint, WTVnav.executePathVs,
      WTVnav.executeFinal, WTVnav.pathVsCommand, WTVnav.checkPreselector,
      WTVnav.setSnowflake, WTVnav.setDonut, WTVnav.monitorValues,
      WTVnav.setTargetAltitude, WTVnav.recalculate, WTVnav.deactivate,
      WTVnav.vnavAltSlotRequest, jsRound, jsFloor, jsCeil, jsLtQO, jsGtOQ,
      jsGtOOplus, jsGtQOplus, jsRoundEqOQ, jsRoundNeQO, jsFloorNeQO,
      jsTruthyStr, WTVnav.initVnavState, WTVnav.tanZero, vsConst,
      WTVnav.baseVnav, WTVnav.baseSel, WTVnav.baseSv,
      VerticalNavModeStateALTC, VerticalNavModeStateALT,
      VerticalNavModeStatePTCH, VerticalNavModeStateVS, VerticalNavModeStateFLC,
      VerticalNavModeStateGP, LateralNavModeStateAPPR, LateralNavModeStateNAV]

/-- C5 (amended): `deactivate()` clears the armed, armed-from-above, active,
activate, constraint and alert-fired flags and resets all four annunciator
outputs (constraint flag, snowflake, path status, donut) to their off values,
but leaves the execution-inhibit flag unchanged; `failed()` clears the armed,
active, activate, constraint and alert-fired flags, resets the same
annunciators, commands the current raw upstream altitude to altitude slot 1
as an immediate forced target, and leaves both the armed-from-above flag and
the execution-inhibit flag unchanged. -/
theorem vnav_deactivate_failed_effects (d : WTVnav.VnavState)
    (sv : WTVnav.SimVars) (vnav : WTVnav.VnavData) :
    (WTVnav.deactivate d sv).1.pathArm = false ∧
    (WTVnav.deactivate d sv).1.pathArmAbove = false ∧
    (WTVnav.deactivate d sv).1.pathActive = false ∧
    (WTVnav.deactivate d sv).1.pathActivate = false ∧
    (WTVnav.deactivate d sv).1.constraintExists = false ∧
    (WTVnav.deactivate d sv).1.pathArmFired = false ∧
    (WTVnav.deactivate d sv).1.inhibitExecute = d.inhibitExecute ∧
    (WTVnav.deactivate d sv).2.constraintFlag = 0 ∧
    (WTVnav.deactivate d sv).2.snowflake = 0 ∧
    (WTVnav.deactivate d sv).2.pathStatus = 0 ∧
    (WTVnav.deactivate d sv).2.donut = some 0 ∧
    (WTVnav.failed d sv vnav).1.pathArm = false ∧
    (WTVnav.failed d sv vnav).1.pathActive = false ∧
    (WTVnav.failed d sv vnav).1.pathActivate = false ∧
    (WTVnav.failed d sv vnav).1.constraintExists = false ∧
    (WTVnav.failed d sv vnav).1.pathArmFired = false ∧
    (WTVnav.failed d sv vnav).1.pathArmAbove = d.pathArmAbove ∧
    (WTVnav.failed d sv vnav).1.inhibitExecute = d.inhibitExecute ∧
    (WTVnav.failed d sv vnav).2.1.constraintFlag = 0 ∧
    (WTVnav.failed d sv vnav).2.1.snowflake = 0 ∧
    (WTVnav.failed d sv vnav).2.1.pathStatus = 0 ∧
    (WTVnav.failed d sv vnav).2.1.donut = some 0 ∧
    (WTVnav.failed d sv vnav).2.2 =
      [WTVnav.GEvent.apAltVarSet 1 (some vnav.altitude) true] := by
  simp [WTVnav.deactivate, WTVnav.failed]

/-- Counterexample for C5 as stated: starting from a state in which every
flag is raised, `deactivate()` leaves the execution-inhibit flag set and
`failed()` leaves the armed-from-above flag set, so neither call clears all
armed and execution-inhibit flags. -/
theorem vnav_deactivate_failed_counterexample :
    (WTVnav.deactivate WTVnav.cexAllOn WTVnav.baseSv).1.inhibitExecute = true ∧
    (WTVnav.failed WTVnav.cexAllOn WTVnav.baseSv WTVnav.baseVnav).1.pathArmAbove = true ∧
    (WTVnav.failed WTVnav.cexAllOn WTVnav.baseSv WTVnav.baseVnav).1.inhibitExecute = true := by
  refine ⟨rfl, rfl, rfl⟩

/-- C9: in the intercept-constraint block at the top of `update()`, the inner
conditional on `currentVerticalArmedStates[0]` is a JS assignment of the
glide-path mode value, which is a nonempty string and therefore always
truthy; consequently whenever the path is active, the vertical mode is
altitude-capture and execution is not already inhibited, the block always
clears the inhibit flag, writes path-status 1 and mutates the selector's
armed-state slot to the glide-path value, and the else branch that would set
the inhibit flag is never taken. -/
theorem vnav_intercept_block_assignment_truthy (d : WTVnav.VnavState)
    (sel : WTVnav.ModeSelector) (sv : WTVnav.SimVars)
    (h1 : d.pathActive = true)
    (h2 : sel.currentVerticalActiveState = VerticalNavModeStateALTC)
    (h3 : d.inhibitExecute = false) :
    jsTruthyStr VerticalNavModeStateGP = true ∧
    (WTVnav.interceptBlock d sel sv).1.inhibitExecute = false ∧
    (WTVnav.interceptBlock d sel sv).2.2.pathStatus = 1 ∧
    (WTVnav.interceptBlock d sel sv).2.1.armed0 = VerticalNavModeStateGP := by
  simp [WTVnav.interceptBlock, h1, h2, h3, jsTruthyStr, VerticalNavModeStateGP]

/-- Witness for C9: the intercept block applied to an active-path state in
altitude-capture mode. -/
theorem vnav_intercept_block_assignment_truthy_witness :
    jsTruthyStr VerticalNavModeStateGP = true ∧
    (WTVnav.interceptBlock WTVnav.cexActiveBareDir WTVnav.cexAltcSel
      WTVnav.baseSv).1.inhibitExecute = false ∧
    (WTVnav.interceptBlock WTVnav.cexActiveBareDir WTVnav.cexAltcSel
      WTVnav.baseSv).2.2.pathStatus = 1 ∧
    (WTVnav.interceptBlock WTVnav.cexActiveBareDir WTVnav.cexAltcSel
      WTVnav.baseSv).2.1.armed0 = VerticalNavModeStateGP :=
  vnav_intercept_block_assignment_truthy WTVnav.cexActiveBareDir WTVnav.cexAltcSel
    WTVnav.baseSv rfl rfl rfl

/-- C3 (amended): slot reconciliation depends on the branch the cycle takes:
in the new-path-inhibit and anomalous-deactivation branches the cycle returns
before reconciling (`vnavAltSlotRequest` runs zero times); in the suspended
and full-recompute branches it runs exactly once; in the constraint-fallback
and full-path branches it runs once at the end of the cycle plus possibly
once more inside the `recalculate` called from `execute`. Whenever it runs,
the last run uses the cycle's final desired slot, so every slot-change
request derived from the final state is among the emitted events; and the
active slot index is never written by the cycle. -/
theorem vnav_slot_reconciliation_per_branch (tanDeg : ℚ → ℚ)
    (d : WTVnav.VnavState) (vnav : WTVnav.VnavData) (sel : WTVnav.ModeSelector)
    (sv : WTVnav.SimVars) :
    (WTVnav.update tanDeg d vnav sel sv).sel.currentAltSlotIndex =
      sel.currentAltSlotIndex ∧
    ((WTVnav.update tanDeg d vnav sel sv).branch = WTVnav.VBranch.newPathInhibit ∨
     (WTVnav.update tanDeg d vnav sel sv).branch = WTVnav.VBranch.activeDeact →
      (WTVnav.update tanDeg d vnav sel sv).slotCalls = 0) ∧
    ((WTVnav.update tanDeg d vnav sel sv).branch = WTVnav.VBranch.suspended ∨
     (WTVnav.update tanDeg d vnav sel sv).branch = WTVnav.VBranch.recompute →
      (WTVnav.update tanDeg d vnav sel sv).slotCalls = 1) ∧
    ((WTVnav.update tanDeg d vnav sel sv).branch = WTVnav.VBranch.constraintFallback ∨
     (WTVnav.update tanDeg d vnav sel sv).branch = WTVnav.VBranch.pathRun →
      1 ≤ (WTVnav.update tanDeg d vnav sel sv).slotCalls ∧
      (WTVnav.update tanDeg d vnav sel sv).slotCalls ≤ 2) ∧
    (1 ≤ (WTVnav.update tanDeg d vnav sel sv).slotCalls →
      ∀ e ∈ WTVnav.vnavAltSlotRequest
          (WTVnav.update tanDeg d vnav sel sv).dir.vnavAltSlot
          (WTVnav.update tanDeg d vnav sel sv).sel.currentAltSlotIndex,
        e ∈ (WTVnav.update tanDeg d vnav sel sv).events) := by
  obtain ⟨ih, ar, st, hib⟩ := WTVnav.interceptBlock_shape d sel sv
  simp only [WTVnav.update, hib]
  split
  · split
    · split
      · -- new-path inhibit
        refine ⟨by simp, by simp, by simp, by simp, ?_⟩
        simp
      · split
        · -- anomalous active-path deactivation
          refine ⟨by simp, by simp, by simp, by simp, ?_⟩
          simp
        · -- full path run
          refine ⟨by simp, by simp, by simp, ?_, ?_⟩
          · intro
            exact ⟨Nat.succ_le_succ (Nat.zero_le _),
              Nat.succ_le_succ (WTVnav.execute_slotCalls_le_one _ _ _ _ _)⟩
          · intro _ e he
            simp only [List.mem_append]
            right
            simpa using he
    · split
      · -- constraint fallback
        refine ⟨by simp, by simp, by simp, ?_, ?_⟩
        · intro
          exact ⟨Nat.succ_le_succ (Nat.zero_le _),
            Nat.succ_le_succ (WTVnav.execute_slotCalls_le_one _ _ _ _ _)⟩
        · intro _ e he
          simp only [List.mem_append]
          right
          simpa using he
      · -- full recompute
        refine ⟨by simp, by simp, by simp, by simp, ?_⟩
        intro _ e he
        simp only [WTVnav.recalculate, List.mem_append]
        right
        simpa [WTVnav.recalculate] using he
  · -- suspended
    refine ⟨by simp, by simp, by simp, by simp, ?_⟩
    intro _ e he
    simpa [WTVnav.deactivate] using he

set_option maxHeartbeats 1000000 in
/-- Witness for C3: on a full-path cycle from the constructor state,
reconciliation runs between one and two times. -/
theorem vnav_slot_reconciliation_per_branch_witness :
    1 ≤ (WTVnav.update WTVnav.tanZero WTVnav.initVnavState WTVnav.baseVnav
      WTVnav.baseSel WTVnav.baseSv).slotCalls ∧
    (WTVnav.update WTVnav.tanZero WTVnav.initVnavState WTVnav.baseVnav
      WTVnav.baseSel WTVnav.baseSv).slotCalls ≤ 2 :=
  (vnav_slot_reconciliation_per_branch WTVnav.tanZero WTVnav.initVnavState
    WTVnav.baseVnav WTVnav.baseSel WTVnav.baseSv).2.2.2.1
    (Or.inr (by
      norm_num [WTVnav.update, WTVnav.interceptBlock, WTVnav.constraintDataStep,
        WTVnav.cancelConstraint, WTVnav.newPathStep, WTVnav.newPathCond,
        WTVnav.armingStep, WTVnav.armFlagsCode, WTVnav.activationStep,
        WTVnav.activeStep, WTVnav.execute, WTVnav.executeActivate,
        WTVnav.executeStatusChain, WTVnav.executeConstraint, WTVnav.executePathVs,
        WTVnav.executeFinal, WTVnav.pathVsCommand, WTVnav.checkPreselector,
        WTVnav.setSnowflake, WTVnav.setDonut, WTVnav.monitorValues,
        WTVnav.setTargetAltitude, WTVnav.recalculate, WTVnav.deactivate,
        WTVnav.vnavAltSlotRequest, jsRound, jsFloor, jsCeil, jsLtQO, jsGtOQ,
        jsGtOOplus, jsGtQOplus, jsRoundEqOQ, jsRoundNeQO, jsFloorNeQO,
        jsTruthyStr, WTVnav.initVnavState, WTVnav.tanZero, vsConst,
        WTVnav.baseVnav, WTVnav.baseSel, WTVnav.baseSv,
        VerticalNavModeStateALTC, VerticalNavModeStateALT,
        VerticalNavModeStatePTCH, VerticalNavModeStateVS,
        VerticalNavModeStateFLC, VerticalNavModeStateGP,
        LateralNavModeStateAPPR, LateralNavModeStateNAV]))

set_option maxHeartbeats 1000000 in
/-- Counterexample for C3 as stated: a new-path-inhibit cycle emits no events
at all and never runs slot reconciliation even though the desired
altitude-preselector slot (2) differs from the active slot (1), so slot
reconciliation does not run exactly once at the end of every cycle and no
slot-change request is emitted. -/
theorem vnav_slot_reconciliation_counterexample :
    (WTVnav.update WTVnav.tanZero WTVnav.cexSlotDir WTVnav.cexNewPathVnav
      WTVnav.baseSel WTVnav.cexIndicated5200Sv).slotCalls = 0 ∧
    (WTVnav.update WTVnav.tanZero WTVnav.cexSlotDir WTVnav.cexNewPathVnav
      WTVnav.baseSel WTVnav.cexIndicated5200Sv).events = [] ∧
    (WTVnav.update WTVnav.tanZero WTVnav.cexSlotDir WTVnav.cexNewPathVnav
      WTVnav.baseSel WTVnav.cexIndicated5200Sv).dir.vnavAltSlot = some 2 ∧
    (WTVnav.update WTVnav.tanZero WTVnav.cexSlotDir WTVnav.cexNewPathVnav
      WTVnav.baseSel WTVnav.cexIndicated5200Sv).sel.currentAltSlotIndex = 1 := by
  refine ⟨?_, ?_, ?_, ?_⟩ <;>
    norm_num [WTVnav.update, WTVnav.interceptBlock, WTVnav.constraintDataStep,
      WTVnav.cancelConstraint, WTVnav.newPathStep, WTVnav.newPathCond,
      WTVnav.armingStep, WTVnav.armFlagsCode, WTVnav.activationStep,
      WTVnav.activeStep, WTVnav.execute, WTVnav.executeActivate,
      WTVnav.executeStatusChain, WTVnav.executeConstraint, WTVnav.executePathVs,
      WTVnav.executeFinal, WTVnav.pathVsCommand, WTVnav.checkPreselector,
      WTVnav.setSnowflake, WTVnav.setDonut, WTVnav.monitorValues,
      WTVnav.setTargetAltitude, WTVnav.recalculate, WTVnav.deactivate,
      WTVnav.vnavAltSlotRequest, jsRound, jsFloor, jsCeil, jsLtQO, jsGtOQ,
      jsGtOOplus, jsGtQOplus, jsRoundEqOQ, jsRoundNeQO, jsFloorNeQO,
      jsTruthyStr, WTVnav.initVnavState, WTVnav.cexSlotDir, WTVnav.tanZero,
      vsConst, WTVnav.baseVnav, WTVnav.cexNewPathVnav, WTVnav.baseSel,
      WTVnav.baseSv, WTVnav.cexIndicated5200Sv,
      VerticalNavModeStateALTC, VerticalNavModeStateALT,
      VerticalNavModeStatePTCH, VerticalNavModeStateVS,
      VerticalNavModeStateFLC, VerticalNavModeStateGP,
      LateralNavModeStateAPPR, LateralNavModeStateNAV]

/-- C4 (amended): on a new-path signal the update cycle inhibits execution
and returns if and only if the held target is above the new target (by any
amount), the indicated altitude is more than 100 ft above the held target
(not the new one), and the altitude deviation is below -100 ft; in every
other new-path case the block clears the inhibit flag and the armed, active
and activate flags and accepts the new path, clearing the new-path signal. -/
theorem vnav_new_path_handling (tanDeg : ℚ → ℚ) (d : WTVnav.VnavState)
    (vnav : WTVnav.VnavData) (sel : WTVnav.ModeSelector) (sv : WTVnav.SimVars)
    (h1 : vnav.vnavCalculating = true) (h2 : vnav.pathCalculating = true)
    (h3 : vnav.newPath = true) :
    (WTVnav.newPathCond { d with indicatedAltitude := some sv.indicatedAltitude }
        vnav = true →
      (WTVnav.update tanDeg d vnav sel sv).branch = WTVnav.VBranch.newPathInhibit ∧
      (WTVnav.update tanDeg d vnav sel sv).slotCalls = 0 ∧
      (WTVnav.update tanDeg d vnav sel sv).dir.inhibitExecute = true ∧
      (WTVnav.update tanDeg d vnav sel sv).vnav.newPath = true ∧
      (WTVnav.update tanDeg d vnav sel sv).dir.pathArm = d.pathArm ∧
      (WTVnav.update tanDeg d vnav sel sv).dir.pathArmAbove = d.pathArmAbove ∧
      (WTVnav.update tanDeg d vnav sel sv).dir.pathActive = d.pathActive) ∧
    (WTVnav.newPathCond { d with indicatedAltitude := some sv.indicatedAltitude }
        vnav = false →
      (WTVnav.update tanDeg d vnav sel sv).branch ≠ WTVnav.VBranch.newPathInhibit ∧
      (WTVnav.update tanDeg d vnav sel sv).vnav.newPath = false ∧
      (WTVnav.update tanDeg d vnav sel sv).dir.inhibitExecute = false ∧
      (WTVnav.newPathStep (WTVnav.constraintDataStep
          { d with indicatedAltitude := some sv.indicatedAltitude }
          vnav.vnavConstraintType).1 vnav).1.inhibitExecute = false ∧
      (WTVnav.newPathStep (WTVnav.constraintDataStep
          { d with indicatedAltitude := some sv.indicatedAltitude }
          vnav.vnavConstraintType).1 vnav).1.pathArm = false ∧
      (WTVnav.newPathStep (WTVnav.constraintDataStep
          { d with indicatedAltitude := some sv.indicatedAltitude }
          vnav.vnavConstraintType).1 vnav).1.pathArmAbove = false ∧
      (WTVnav.newPathStep (WTVnav.constraintDataStep
          { d with indicatedAltitude := some sv.indicatedAltitude }
          vnav.vnavConstraintType).1 vnav).1.pathActive = false ∧
      (WTVnav.newPathStep (WTVnav.constraintDataStep
          { d with indicatedAltitude := some sv.indicatedAltitude }
          vnav.vnavConstraintType).1 vnav).1.pathActivate = false ∧
      (WTVnav.newPathStep (WTVnav.constraintDataStep
          { d with indicatedAltitude := some sv.indicatedAltitude }
          vnav.vnavConstraintType).1 vnav).2.1.newPath = false) := by
  obtain ⟨ih, ar, st, hib⟩ := WTVnav.interceptBlock_shape d sel sv
  have hcondEq : ∀ x : WTVnav.VnavState,
      x.vnavTargetAltitude = d.vnavTargetAltitude →
      x.indicatedAltitude = some sv.indicatedAltitude →
      WTVnav.newPathCond x vnav =
        WTVnav.newPathCond { d with indicatedAltitude := some sv.indicatedAltitude }
          vnav := by
    intro x hx1 hx2
    simp [WTVnav.newPathCond, hx1, hx2]
  constructor
  · intro hc
    simp only [WTVnav.update, hib, h1, h2, eq_self_iff_true, if_true]
    have hearly : (WTVnav.newPathStep (WTVnav.constraintDataStep
        { d with inhibitExecute := ih, indicatedAltitude := some sv.indicatedAltitude }
        vnav.vnavConstraintType).1 vnav).2.2 = true := by
      rw [WTVnav.newPathStep_early_iff]
      refine ⟨h3, ?_⟩
      rw [hcondEq _ (by rw [WTVnav.constraintDataStep_target])
        (by rw [WTVnav.constraintDataStep_indicated])]
      exact hc
    split
    · rename_i hsplit
      obtain ⟨hd, hv⟩ := WTVnav.newPathStep_early_spec _ _ hsplit
      refine ⟨rfl, rfl, ?_, ?_, ?_, ?_, ?_⟩ <;>
        simp [hd, hv, h3, WTVnav.constraintDataStep_pathArm,
          WTVnav.constraintDataStep_pathArmAbove,
          WTVnav.constraintDataStep_pathActive]
    · rename_i hsplit
      exact absurd hearly hsplit
  · intro hc
    have hfalse : ∀ x : WTVnav.VnavState,
        x.vnavTargetAltitude = d.vnavTargetAltitude →
        x.indicatedAltitude = some sv.indicatedAltitude →
        (WTVnav.newPathStep x vnav).2.2 = false := by
      intro x hx1 hx2
      rw [Bool.eq_false_iff, Ne, WTVnav.newPathStep_early_iff]
      intro hcontra
      rw [hcondEq x hx1 hx2, hc] at hcontra
      exact absurd hcontra.2 (by simp)
    obtain ⟨hd, hv⟩ := WTVnav.newPathStep_accept_spec _ _ h3
      (hfalse (WTVnav.constraintDataStep
        { d with indicatedAltitude := some sv.indicatedAltitude }
        vnav.vnavConstraintType).1
        (by rw [WTVnav.constraintDataStep_target])
        (by rw [WTVnav.constraintDataStep_indicated]))
    obtain ⟨hd2, hv2⟩ := WTVnav.newPathStep_accept_spec _ _ h3
      (hfalse (WTVnav.constraintDataStep
        { d with inhibitExecute := ih, indicatedAltitude := some sv.indicatedAltitude }
        vnav.vnavConstraintType).1
        (by rw [WTVnav.constraintDataStep_target])
        (by rw [WTVnav.constraintDataStep_indicated]))
    simp only [WTVnav.update, hib, h1, h2, eq_self_iff_true, if_true]
    have hlate : (WTVnav.newPathStep (WTVnav.constraintDataStep
        { d with inhibitExecute := ih, indicatedAltitude := some sv.indicatedAltitude }
        vnav.vnavConstraintType).1 vnav).2.2 = false :=
      hfalse _ (by rw [WTVnav.constraintDataStep_target])
        (by rw [WTVnav.constraintDataStep_indicated])
    split
    · rename_i hsplit
      rw [hlate] at hsplit
      exact absurd hsplit (by simp)
    · split
      · refine ⟨by simp, ?_, ?_, ?_, ?_, ?_, ?_, ?_, ?_⟩ <;>
          simp [hd, hv, hd2, hv2, WTVnav.activeStep_inhibit,
            WTVnav.activationStep_inhibit, WTVnav.armingStep_inhibit]
      · refine ⟨by simp, ?_, ?_, ?_, ?_, ?_, ?_, ?_, ?_⟩ <;>
          simp [hd, hv, hd2, hv2, WTVnav.execute_inhibit,
            WTVnav.activeStep_inhibit, WTVnav.activationStep_inhibit,
            WTVnav.armingStep_inhibit]

set_option maxHeartbeats 1000000 in
/-- Witness for C4: a new path 1000 ft below a held target of 5000 ft with
the aircraft at 5200 ft and deviation -200 ft inhibits execution and returns
without accepting the path. -/
theorem vnav_new_path_handling_witness :
    (WTVnav.update WTVnav.tanZero WTVnav.cexHeldDir WTVnav.cexNewPathVnav
      WTVnav.baseSel WTVnav.cexIndicated5200Sv).branch =
        WTVnav.VBranch.newPathInhibit ∧
    (WTVnav.update WTVnav.tanZero WTVnav.cexHeldDir WTVnav.cexNewPathVnav
      WTVnav.baseSel WTVnav.cexIndicated5200Sv).dir.inhibitExecute = true ∧
    (WTVnav.update WTVnav.tanZero WTVnav.cexHeldDir WTVnav.cexNewPathVnav
      WTVnav.baseSel WTVnav.cexIndicated5200Sv).vnav.newPath = true := by
  have h := (vnav_new_path_handling WTVnav.tanZero WTVnav.cexHeldDir
    WTVnav.cexNewPathVnav WTVnav.baseSel WTVnav.cexIndicated5200Sv rfl rfl rfl).1
    (by norm_num [WTVnav.newPathCond, jsGtOQ, jsGtOOplus, WTVnav.cexHeldDir,
      WTVnav.initVnavState, WTVnav.cexNewPathVnav, WTVnav.baseVnav,
      WTVnav.cexIndicated5200Sv, WTVnav.baseSv])
  exact ⟨h.1, h.2.2.1, h.2.2.2.1⟩

set_option maxHeartbeats 1000000 in
/-- Counterexample for C4 as stated: a new path only 50 ft below the held
target (not more than 100 ft) still inhibits execution and returns, because
the source checks `heldTarget > newTarget` with no 100 ft margin and checks
the indicated altitude against the held (not the new) target; the claim's
inhibit condition evaluates false on these inputs. -/
theorem vnav_new_path_counterexample :
    (WTVnav.update WTVnav.tanZero WTVnav.cexHeldDir WTVnav.cexNewPathNearVnav
      WTVnav.baseSel WTVnav.cexIndicated5200Sv).dir.inhibitExecute = true ∧
    (WTVnav.update WTVnav.tanZero WTVnav.cexHeldDir WTVnav.cexNewPathNearVnav
      WTVnav.baseSel WTVnav.cexIndicated5200Sv).branch =
        WTVnav.VBranch.newPathInhibit ∧
    (WTVnav.update WTVnav.tanZero WTVnav.cexHeldDir WTVnav.cexNewPathNearVnav
      WTVnav.baseSel WTVnav.cexIndicated5200Sv).vnav.newPath = true ∧
    newPathCondClaim 5000 4950 5200 (-200) = false := by
  refine ⟨?_, ?_, ?_, ?_⟩ <;>
    norm_num [WTVnav.update, WTVnav.interceptBlock, WTVnav.constraintDataStep,
      WTVnav.cancelConstraint, WTVnav.newPathStep, WTVnav.newPathCond,
      WTVnav.armingStep, WTVnav.armFlagsCode, WTVnav.activationStep,
      WTVnav.activeStep, WTVnav.execute, WTVnav.executeActivate,
      WTVnav.executeStatusChain, WTVnav.executeConstraint, WTVnav.executePathVs,
      WTVnav.executeFinal, WTVnav.pathVsCommand, WTVnav.checkPreselector,
      WTVnav.setSnowflake, WTVnav.setDonut, WTVnav.monitorValues,
      WTVnav.setTargetAltitude, WTVnav.recalculate, WTVnav.deactivate,
      WTVnav.vnavAltSlotRequest, newPathCondClaim, jsRound, jsFloor, jsCeil,
      jsLtQO, jsGtOQ, jsGtOOplus, jsGtQOplus, jsRoundEqOQ, jsRoundNeQO,
      jsFloorNeQO, jsTruthyStr, WTVnav.initVnavState, WTVnav.cexHeldDir,
      WTVnav.tanZero, vsConst, WTVnav.baseVnav, WTVnav.cexNewPathNearVnav,
      WTVnav.baseSel, WTVnav.baseSv, WTVnav.cexIndicated5200Sv,
      VerticalNavModeStateALTC, VerticalNavModeStateALT,
      VerticalNavModeStatePTCH, VerticalNavModeStateVS,
      VerticalNavModeStateFLC, VerticalNavModeStateGP,
      LateralNavModeStateAPPR, LateralNavModeStateNAV]

/-- The new-path block keeps `pathActive` false. -/
theorem WTVnav.newPathStep_pathActive_false (d2 : WTVnav.VnavState)
    (v : WTVnav.VnavData) (h : d2.pathActive = false) :
    (WTVnav.newPathStep d2 v).1.pathActive = false := by
  simp only [WTVnav.newPathStep]
  repeat' split
  all_goals simp_all

/-- The new-path block never changes the stored indicated altitude. -/
theorem WTVnav.newPathStep_indicated (d2 : WTVnav.VnavState) (v : WTVnav.VnavData) :
    (WTVnav.newPathStep d2 v).1.indicatedAltitude = d2.indicatedAltitude := by
  simp only [WTVnav.newPathStep]
  repeat' split
  all_goals simp_all

/-- The new-path block changes no upstream field other than the new-path
signal. -/
theorem WTVnav.newPathStep_vnav_preserves (d2 : WTVnav.VnavState)
    (v : WTVnav.VnavData) :
    (WTVnav.newPathStep d2 v).2.1.vnavTargetAltitude = v.vnavTargetAltitude ∧
    (WTVnav.newPathStep d2 v).2.1.altDeviation = v.altDeviation ∧
    (WTVnav.newPathStep d2 v).2.1.distanceToTod = v.distanceToTod ∧
    (WTVnav.newPathStep d2 v).2.1.topOfDescent = v.topOfDescent ∧
    (WTVnav.newPathStep d2 v).2.1.vnavTargetDistance = v.vnavTargetDistance ∧
    (WTVnav.newPathStep d2 v).2.1.gpExists = v.gpExists := by
  simp only [WTVnav.newPathStep]
  repeat' split
  all_goals simp_all

/-- While the path is not active, the arming block sets the flags to the
values of the arming chain. -/
theorem WTVnav.armingStep_flags (d : WTVnav.VnavState) (vnav : WTVnav.VnavData)
    (sel : WTVnav.ModeSelector) (sv : WTVnav.SimVars) (h : d.pathActive = false) :
    (WTVnav.armingStep d vnav sel sv).pathArm =
      (WTVnav.armFlagsCode sel.currentVerticalActiveState sv.altLock3
        vnav.vnavTargetAltitude vnav.altDeviation vnav.distanceToTod
        vnav.topOfDescent vnav.vnavTargetDistance sel.selectedAlt1
        d.indicatedAltitude sel.currentLateralActiveState vnav.gpExists).1 ∧
    (WTVnav.armingStep d vnav sel sv).pathArmAbove =
      (WTVnav.armFlagsCode sel.currentVerticalActiveState sv.altLock3
        vnav.vnavTargetAltitude vnav.altDeviation vnav.distanceToTod
        vnav.topOfDescent vnav.vnavTargetDistance sel.selectedAlt1
        d.indicatedAltitude sel.currentLateralActiveState vnav.gpExists).2 := by
  simp [WTVnav.armingStep, h]

/-- The activation block never changes `pathArm`. -/
theorem WTVnav.activationStep_pathArm (d : WTVnav.VnavState) (vnav : WTVnav.VnavData)
    (gs : ℚ) : (WTVnav.activationStep d vnav gs).pathArm = d.pathArm := by
  obtain ⟨t, a, r, hs⟩ := WTVnav.activationStep_shape d vnav gs
  rw [hs]

/-- The activation block never changes `pathArmAbove`. -/
theorem WTVnav.activationStep_pathArmAbove (d : WTVnav.VnavState)
    (vnav : WTVnav.VnavData) (gs : ℚ) :
    (WTVnav.activationStep d vnav gs).pathArmAbove = d.pathArmAbove := by
  obtain ⟨t, a, r, hs⟩ := WTVnav.activationStep_shape d vnav gs
  rw [hs]

/-- The new-path block never changes the upstream target altitude. -/
theorem WTVnav.newPathStep_vnavTargetAltitude (d2 : WTVnav.VnavState)
    (v : WTVnav.VnavData) :
    (WTVnav.newPathStep d2 v).2.1.vnavTargetAltitude = v.vnavTargetAltitude :=
  (WTVnav.newPathStep_vnav_preserves d2 v).1

/-- The new-path block never changes the altitude deviation. -/
theorem WTVnav.newPathStep_altDeviation (d2 : WTVnav.VnavState)
    (v : WTVnav.VnavData) :
    (WTVnav.newPathStep d2 v).2.1.altDeviation = v.altDeviation :=
  (WTVnav.newPathStep_vnav_preserves d2 v).2.1

/-- The new-path block never changes the distance to descent point. -/
theorem WTVnav.newPathStep_distanceToTod (d2 : WTVnav.VnavState)
    (v : WTVnav.VnavData) :
    (WTVnav.newPathStep d2 v).2.1.distanceToTod = v.distanceToTod :=
  (WTVnav.newPathStep_vnav_preserves d2 v).2.2.1

/-- The new-path block never changes the top-of-descent distance. -/
theorem WTVnav.newPathStep_topOfDescent (d2 : WTVnav.VnavState)
    (v : WTVnav.VnavData) :
    (WTVnav.newPathStep d2 v).2.1.topOfDescent = v.topOfDescent :=
  (WTVnav.newPathStep_vnav_preserves d2 v).2.2.2.1

/-- The new-path block never changes the target distance. -/
theorem WTVnav.newPathStep_vnavTargetDistance (d2 : WTVnav.VnavState)
    (v : WTVnav.VnavData) :
    (WTVnav.newPathStep d2 v).2.1.vnavTargetDistance = v.vnavTargetDistance :=
  (WTVnav.newPathStep_vnav_preserves d2 v).2.2.2.2.1

/-- The new-path block never changes the glide-path flag. -/
theorem WTVnav.newPathStep_gpExists (d2 : WTVnav.VnavState) (v : WTVnav.VnavData) :
    (WTVnav.newPathStep d2 v).2.1.gpExists = v.gpExists :=
  (WTVnav.newPathStep_vnav_preserves d2 v).2.2.2.2.2

/-- While the path is not active, the arming block sets `pathArm` to the
value of the arming chain. -/
theorem WTVnav.armingStep_pathArm_eq (d : WTVnav.VnavState) (vnav : WTVnav.VnavData)
    (sel : WTVnav.ModeSelector) (sv : WTVnav.SimVars) (h : d.pathActive = false) :
    (WTVnav.armingStep d vnav sel sv).pathArm =
      (WTVnav.armFlagsCode sel.currentVerticalActiveState sv.altLock3
        vnav.vnavTargetAltitude vnav.altDeviation vnav.distanceToTod
        vnav.topOfDescent vnav.vnavTargetDistance sel.selectedAlt1
        d.indicatedAltitude sel.currentLateralActiveState vnav.gpExists).1 :=
  (WTVnav.armingStep_flags d vnav sel sv h).1

/-- While the path is not active, the arming block sets `pathArmAbove` to the
value of the arming chain. -/
theorem WTVnav.armingStep_pathArmAbove_eq (d : WTVnav.VnavState)
    (vnav : WTVnav.VnavData) (sel : WTVnav.ModeSelector) (sv : WTVnav.SimVars)
    (h : d.pathActive = false) :
    (WTVnav.armingStep d vnav sel sv).pathArmAbove =
      (WTVnav.armFlagsCode sel.currentVerticalActiveState sv.altLock3
        vnav.vnavTargetAltitude vnav.altDeviation vnav.distanceToTod
        vnav.topOfDescent vnav.vnavTargetDistance sel.selectedAlt1
        d.indicatedAltitude sel.currentLateralActiveState vnav.gpExists).2 :=
  (WTVnav.armingStep_flags d vnav sel sv h).2

/-- C2 (amended): while the path is not active and the cycle is not the
new-path-inhibit early return (which leaves the flags untouched), the update
cycle sets the arming flags exactly by the source chain: no arming when the
vertical mode is altitude-capture or altitude-hold and the locked altitude
rounds to the rounded upstream target; arm-from-below when altitude deviation
is at most 1000 ft, the distance to the descent point is in [0, 20) NM, and
the selected altitude is more than 75 ft below the indicated altitude (not at
least 75 ft) or the lateral mode is approach with a glide path; arm-from-above
when the deviation exceeds 1000 ft and the top-of-descent distance exceeds
the target distance under the same altitude/approach condition; otherwise
both flags are cleared. In particular, with deviation 500 ft, distance-to-TOD
10 NM and selected altitude 100 ft below indicated, the director arms from
below and not from above. -/
theorem vnav_arming_rules (tanDeg : ℚ → ℚ) (d : WTVnav.VnavState)
    (vnav : WTVnav.VnavData) (sel : WTVnav.ModeSelector) (sv : WTVnav.SimVars)
    (h1 : vnav.vnavCalculating = true) (h2 : vnav.pathCalculating = true)
    (h3 : d.pathActive = false)
    (h4 : ¬(vnav.newPath = true ∧
      WTVnav.newPathCond { d with indicatedAltitude := some sv.indicatedAltitude }
        vnav = true)) :
    (WTVnav.update tanDeg d vnav sel sv).dir.pathArm =
      (WTVnav.armFlagsCode sel.currentVerticalActiveState sv.altLock3
        vnav.vnavTargetAltitude vnav.altDeviation vnav.distanceToTod
        vnav.topOfDescent vnav.vnavTargetDistance sel.selectedAlt1
        (some sv.indicatedAltitude) sel.currentLateralActiveState
        vnav.gpExists).1 ∧
    (WTVnav.update tanDeg d vnav sel sv).dir.pathArmAbove =
      (WTVnav.armFlagsCode sel.currentVerticalActiveState sv.altLock3
        vnav.vnavTargetAltitude vnav.altDeviation vnav.distanceToTod
        vnav.topOfDescent vnav.vnavTargetDistance sel.selectedAlt1
        (some sv.indicatedAltitude) sel.currentLateralActiveState
        vnav.gpExists).2 := by
  have hib := WTVnav.interceptBlock_inactive d sel sv h3
  simp only [WTVnav.update, hib, h1, h2, eq_self_iff_true, if_true]
  have hnp : ∀ x : WTVnav.VnavState, x.vnavTargetAltitude = d.vnavTargetAltitude →
      x.indicatedAltitude = some sv.indicatedAltitude →
      (WTVnav.newPathStep x vnav).2.2 = false := by
    intro x hx1 hx2
    rw [Bool.eq_false_iff, Ne, WTVnav.newPathStep_early_iff]
    intro hcontra
    apply h4
    refine ⟨hcontra.1, ?_⟩
    have hxc : WTVnav.newPathCond x vnav =
        WTVnav.newPathCond { d with indicatedAltitude := some sv.indicatedAltitude }
          vnav := by
      simp [WTVnav.newPathCond, hx1, hx2]
    rw [← hxc]
    exact hcontra.2
  split
  · rename_i hsplit
    rw [hnp _ (by rw [WTVnav.constraintDataStep_target])
      (by rw [WTVnav.constraintDataStep_indicated])] at hsplit
    exact absurd hsplit (by simp)
  · constructor <;>
      simp [WTVnav.execute_pathArm, WTVnav.execute_pathArmAbove,
        WTVnav.activeStep_inactive, WTVnav.activationStep_pathActive,
        WTVnav.armingStep_pathActive, WTVnav.newPathStep_pathActive_false,
        WTVnav.constraintDataStep_pathActive,
        WTVnav.activationStep_pathArm, WTVnav.activationStep_pathArmAbove,
        WTVnav.armingStep_pathArm_eq, WTVnav.armingStep_pathArmAbove_eq,
        WTVnav.newPathStep_indicated, WTVnav.constraintDataStep_indicated,
        WTVnav.newPathStep_vnavTargetAltitude, WTVnav.newPathStep_altDeviation,
        WTVnav.newPathStep_distanceToTod, WTVnav.newPathStep_topOfDescent,
        WTVnav.newPathStep_vnavTargetDistance, WTVnav.newPathStep_gpExists, h3]

set_option maxHeartbeats 1000000 in
/-- Witness for C2: with altitude deviation 500 ft, distance-to-TOD 10 NM and
the selected altitude 100 ft below the indicated altitude, the cycle arms
from below and not from above. -/
theorem vnav_arming_rules_witness :
    (WTVnav.update WTVnav.tanZero WTVnav.initVnavState WTVnav.baseVnav
      WTVnav.witnessSel WTVnav.baseSv).dir.pathArm = true ∧
    (WTVnav.update WTVnav.tanZero WTVnav.initVnavState WTVnav.baseVnav
      WTVnav.witnessSel WTVnav.baseSv).dir.pathArmAbove = false := by
  have h := vnav_arming_rules WTVnav.tanZero WTVnav.initVnavState WTVnav.baseVnav
    WTVnav.witnessSel WTVnav.baseSv rfl rfl rfl
    (by simp [WTVnav.baseVnav])
  constructor
  · rw [h.1]
    norm_num [WTVnav.armFlagsCode, jsRound, jsLtQO, WTVnav.baseVnav,
      WTVnav.witnessSel, WTVnav.baseSel, WTVnav.baseSv,
      VerticalNavModeStateALTC, VerticalNavModeStateALT,
      VerticalNavModeStatePTCH, LateralNavModeStateAPPR, LateralNavModeStateNAV]
  · rw [h.2]
    norm_num [WTVnav.armFlagsCode, jsRound, jsLtQO, WTVnav.baseVnav,
      WTVnav.witnessSel, WTVnav.baseSel, WTVnav.baseSv,
      VerticalNavModeStateALTC, VerticalNavModeStateALT,
      VerticalNavModeStatePTCH, LateralNavModeStateAPPR, LateralNavModeStateNAV]

set_option maxHeartbeats 1000000 in
/-- Counterexample for C2 as stated: first, with the selected altitude
exactly 75 ft below the indicated altitude (at least 75 ft below, as the
claim requires) the cycle does not arm, because the source requires strictly
more than 75 ft; second, a new-path-inhibit cycle returns without
re-evaluating the arming flags, leaving a stale armed-from-above flag set
where the claim's rules would demand (arm-from-below, no arm-from-above). -/
theorem vnav_arming_rules_counterexample :
    ((WTVnav.update WTVnav.tanZero WTVnav.initVnavState WTVnav.baseVnav
        WTVnav.cexBoundarySel WTVnav.baseSv).dir.pathArm = false ∧
      armFlagsClaim VerticalNavModeStatePTCH 3000 4000 500 10 30 5 4925 5000
        LateralNavModeStateNAV false = (true, false)) ∧
    ((WTVnav.update WTVnav.tanZero WTVnav.cexArmedAboveDir WTVnav.cexNewPathVnav
        WTVnav.baseSel WTVnav.cexIndicated5200Sv).dir.pathArmAbove = true ∧
      (armFlagsClaim VerticalNavModeStatePTCH 3000 4000 (-200) 10 30 5 3000 5200
        LateralNavModeStateNAV false).2 = false) := by
  refine ⟨⟨?_, ?_⟩, ?_, ?_⟩ <;>
    norm_num [WTVnav.update, WTVnav.interceptBlock, WTVnav.constraintDataStep,
      WTVnav.cancelConstraint, WTVnav.newPathStep, WTVnav.newPathCond,
      WTVnav.armingStep, WTVnav.armFlagsCode, armFlagsClaim,
      WTVnav.activationStep, WTVnav.activeStep, WTVnav.execute,
      WTVnav.executeActivate, WTVnav.executeStatusChain, WTVnav.executeConstraint,
      WTVnav.executePathVs, WTVnav.executeFinal, WTVnav.pathVsCommand,
      WTVnav.checkPreselector, WTVnav.setSnowflake, WTVnav.setDonut,
      WTVnav.monitorValues, WTVnav.setTargetAltitude, WTVnav.recalculate,
      WTVnav.deactivate, WTVnav.vnavAltSlotRequest, jsRound, jsFloor, jsCeil,
      jsLtQO, jsGtOQ, jsGtOOplus, jsGtQOplus, jsRoundEqOQ, jsRoundNeQO,
      jsFloorNeQO, jsTruthyStr, WTVnav.initVnavState, WTVnav.cexArmedAboveDir,
      WTVnav.tanZero, vsConst, WTVnav.baseVnav, WTVnav.cexNewPathVnav,
      WTVnav.cexBoundarySel, WTVnav.baseSel, WTVnav.baseSv,
      WTVnav.cexIndicated5200Sv, VerticalNavModeStateALTC,
      VerticalNavModeStateALT, VerticalNavModeStatePTCH, VerticalNavModeStateVS,
      VerticalNavModeStateFLC, VerticalNavModeStateGP, LateralNavModeStateAPPR,
      LateralNavModeStateNAV]

/-- `setSnowflake` changes only the snowflake variable. -/
theorem WTVnav.setSnowflake_shape (vnav : WTVnav.VnavData) (sv : WTVnav.SimVars) :
    ∃ s, WTVnav.setSnowflake vnav sv = { sv with snowflake := s } := by
  simp only [WTVnav.setSnowflake]
  repeat' split
  · exact ⟨_, rfl⟩
  · exact ⟨sv.snowflake, rfl⟩
  · exact ⟨_, rfl⟩
  · exact ⟨sv.snowflake, rfl⟩

/-- `setDonut` changes only the donut variable. -/
theorem WTVnav.setDonut_shape (tanDeg : ℚ → ℚ) (d : WTVnav.VnavState)
    (vnav : WTVnav.VnavData) (sel : WTVnav.ModeSelector) (sv : WTVnav.SimVars) :
    ∃ dn, WTVnav.setDonut tanDeg d vnav sel sv = { sv with donut := dn } := by
  simp only [WTVnav.setDonut]
  repeat' split
  all_goals exact ⟨_, rfl⟩

/-- The activation block of `execute` is inert when the activate flag is
clear. -/
theorem WTVnav.executeActivate_skip (ps : Int) (d : WTVnav.VnavState)
    (vnav : WTVnav.VnavData) (sel : WTVnav.ModeSelector) (sv : WTVnav.SimVars)
    (h : d.pathActivate = false) :
    WTVnav.executeActivate ps d vnav sel sv = (d, sv, []) := by
  simp [WTVnav.executeActivate, h]

/-- On an active path whose held target already matches the rounded selected
altitude, the status chain only writes the status variable and possibly the
desired slot. -/
theorem WTVnav.executeStatusChain_active (ps : Int) (d : WTVnav.VnavState)
    (vnav : WTVnav.VnavData) (sel : WTVnav.ModeSelector) (sv : WTVnav.SimVars)
    (h : d.pathActive = true)
    (ht : jsRoundNeQO sel.selectedAlt2 d.vnavTargetAltitude = false) :
    WTVnav.executeStatusChain ps d vnav sel sv =
      ((if sel.currentAltSlotIndex ≠ 2 ∧ vnav.altDeviation > 0 then
          { d with vnavAltSlot := some 2 } else d),
       (if ps ≠ 3 then { sv with pathStatus := 3 } else sv), [], 0) := by
  simp [WTVnav.executeStatusChain, h, ht]

/-- On an active path the final block of `execute` runs the vertical-speed
branch. -/
theorem WTVnav.executeFinal_active (tanDeg : ℚ → ℚ) (d : WTVnav.VnavState)
    (vnav : WTVnav.VnavData) (sel : WTVnav.ModeSelector) (sv : WTVnav.SimVars)
    (h : d.pathActive = true) :
    WTVnav.executeFinal tanDeg d vnav sel sv =
      WTVnav.executePathVs tanDeg d vnav sel sv := by
  simp [WTVnav.executeFinal, h]

/-- Outside the one-mile window the commanded path vertical speed agrees with
the amended claim formula. -/
theorem WTVnav.pathVsCommand_no_window (dvs mc dist dev : ℚ)
    (hdist : ¬(dist < 1 ∧ dist > 0)) :
    WTVnav.pathVsCommand dvs mc dist dev = vsCommandAmended dvs mc dev := by
  simp [WTVnav.pathVsCommand, vsCommandAmended, hdist]

/-- C8 (amended): while the path is active and the target is not within the
one-mile window, the commanded target vertical speed is desiredVS plus or
minus a correction proportional to the altitude deviation with gain 2.1 and
floor 100 ft/min, applied in the direction that converges onto the path,
rounded up to the nearest 100 ft/min, where desiredVS derives from the active
flight-path angle and ground speed; the correction is capped at the maximum
correction derived from the 6-degree maximum path angle only when above the
path, while below the path it is capped at the negated desired vertical speed
(so the corrected command does not climb past level); within 10 ft of the
path the command is desiredVS rounded the same way. -/
theorem vnav_path_vs_command (tanDeg : ℚ → ℚ) (d : WTVnav.VnavState)
    (vnav : WTVnav.VnavData) (sel : WTVnav.ModeSelector) (sv : WTVnav.SimVars)
    (t : ℚ) (hact : d.pathActive = true)
    (htgt : d.vnavTargetAltitude = some t)
    (hfloor : ((jsFloor sel.selectedAlt2 : ℚ)) = t)
    (hdist : ¬(vnav.vnavTargetDistance < 1 ∧ vnav.vnavTargetDistance > 0)) :
    (WTVnav.executeFinal tanDeg d vnav sel sv).2.2 =
      WTVnav.GEvent.apVsVarSet 2
        (vsCommandAmended
          (-vsConst * sv.groundSpeed * tanDeg
            (if sel.currentLateralActiveState = LateralNavModeStateAPPR ∧
                vnav.gpExists = true then vnav.gpAngle else vnav.desiredFPA))
          (vsConst * sv.groundSpeed * tanDeg 6 +
            -vsConst * sv.groundSpeed * tanDeg
              (if sel.currentLateralActiveState = LateralNavModeStateAPPR ∧
                  vnav.gpExists = true then vnav.gpAngle else vnav.desiredFPA))
          vnav.altDeviation) ::
      (if sv.vsHoldOn ≠ 1 ∧ vnav.altDeviation > 0 then
        [WTVnav.GEvent.apPanelVsHold] else []) := by
  rw [WTVnav.executeFinal_active tanDeg d vnav sel sv hact]
  have hne : jsFloorNeQO sel.selectedAlt2 d.vnavTargetAltitude = false := by
    simp [jsFloorNeQO, htgt, hfloor]
  simp [WTVnav.executePathVs, hne, WTVnav.pathVsCommand_no_window _ _ _ _ hdist]

/-- Witness for C8: an active path with deviation 500 ft, target distance
5 NM and a zero tangent stand-in commands a vertical speed of 0. -/
theorem vnav_path_vs_command_witness :
    (WTVnav.executeFinal WTVnav.tanZero WTVnav.cexActiveDir WTVnav.baseVnav
      WTVnav.baseSel WTVnav.baseSv).2.2 = [WTVnav.GEvent.apVsVarSet 2 0] := by
  have h := vnav_path_vs_command WTVnav.tanZero WTVnav.cexActiveDir WTVnav.baseVnav
    WTVnav.baseSel WTVnav.baseSv 4000 rfl rfl
    (by norm_num [jsFloor, WTVnav.baseSel])
    (by norm_num [WTVnav.baseVnav])
  rw [h]
  norm_num [vsCommandAmended, WTVnav.tanZero, WTVnav.baseSv, WTVnav.baseVnav,
    WTVnav.baseSel, jsCeil, vsConst, LateralNavModeStateAPPR,
    LateralNavModeStateNAV]

set_option maxHeartbeats 1000000 in
/-- Counterexample for C8 as stated: with the aircraft 1000 ft below the
path, a desired vertical speed of -1000 ft/min and a maximum correction of
2000 ft/min (tangent stand-in realizing those at 100 kt), `execute` commands
0 ft/min because the source caps the below-path correction at the negated
desired vertical speed (1000), while the claim's formula, capping at the
maximum correction, yields 1000 ft/min. -/
theorem vnav_path_vs_command_counterexample :
    (WTVnav.execute WTVnav.cexTan WTVnav.cexActiveDir WTVnav.cexDeepBelowVnav
      WTVnav.baseSel WTVnav.baseSv).events = [WTVnav.GEvent.apVsVarSet 2 0] ∧
    vsCommandClaim (-1000) 2000 (-1000) = 1000 := by
  constructor <;>
    norm_num [WTVnav.execute, WTVnav.executeActivate, WTVnav.executeStatusChain,
      WTVnav.executeConstraint, WTVnav.executePathVs, WTVnav.executeFinal,
      WTVnav.pathVsCommand, WTVnav.checkPreselector, WTVnav.setSnowflake,
      WTVnav.setDonut, WTVnav.monitorValues, WTVnav.setTargetAltitude,
      WTVnav.recalculate, WTVnav.vnavAltSlotRequest, vsCommandClaim, jsRound,
      jsFloor, jsCeil, jsLtQO, jsRoundNeQO, jsFloorNeQO, jsTruthyStr,
      WTVnav.initVnavState, WTVnav.cexActiveDir, WTVnav.cexTan, vsConst,
      WTVnav.baseVnav, WTVnav.cexDeepBelowVnav, WTVnav.baseSel, WTVnav.baseSv,
      VerticalNavModeStateALTC, VerticalNavModeStateALT,
      VerticalNavModeStatePTCH, VerticalNavModeStateVS,
      VerticalNavModeStateFLC, VerticalNavModeStateGP,
      LateralNavModeStateAPPR, LateralNavModeStateNAV]

/-- C6: `sequenceToNextWaypoint` changes nothing when sequencing is inhibited
or ground speed is at most 25 kt; under the guard, a current waypoint ending
in a discontinuity enters IN_DISCONTINUITY, inhibits sequencing and commands
the present heading; otherwise a runway next waypoint inhibits further
auto-sequencing and enters TURN_COMPLETING; otherwise the active-waypoint
index advances by one and the state becomes TURN_COMPLETING. -/
theorem lnav_sequence_to_next_waypoint (geo : LNavDirector.GeoOracle)
    (env : LNavDirector.LEnv) (m : LNavDirector.LMachine)
    (plane : LNavDirector.AircraftState) (cw : LNavDirector.Waypoint)
    (plan : LNavDirector.FlightPlan) (hplan : m.activeFlightPlan = some plan) :
    (m.sequencingMode = LNavDirector.FlightPlanSequencingINHIBIT ∨
        ¬plane.groundSpeed > 25 →
      LNavDirector.sequenceToNextWaypoint geo env m plane (some cw) =
        some (m, [])) ∧
    (m.sequencingMode ≠ LNavDirector.FlightPlanSequencingINHIBIT →
      plane.groundSpeed > 25 →
      (cw.endsInDiscontinuity = true →
        LNavDirector.sequenceToNextWaypoint geo env m plane (some cw) =
          some ({ m with state := LNavDirector.LNavStateIN_DISCONTINUITY,
                         discontVar := 1,
                         sequencingMode := LNavDirector.FlightPlanSequencingINHIBIT },
                [LNavDirector.setCourse geo env.planeHeadingTrueDeg plane])) ∧
      (∀ nw : LNavDirector.Waypoint, cw.endsInDiscontinuity = false →
        plan.getWaypoint (plan.activeWaypointIndex + 1) = some nw →
        nw.isRunway = true →
        LNavDirector.sequenceToNextWaypoint geo env m plane (some cw) =
          some ({ m with
                    sequencingMode := LNavDirector.FlightPlanSequencingINHIBIT,
                    state := LNavDirector.LNavStateTURN_COMPLETING,
                    activeFlightPlan := some { plan with
                      activeWaypointIndex := plan.activeWaypointIndex + 1 } },
                [])) ∧
      (cw.endsInDiscontinuity = false →
        (match plan.getWaypoint (plan.activeWaypointIndex + 1) with
         | some nw => nw.isRunway
         | none => false) = false →
        LNavDirector.sequenceToNextWaypoint geo env m plane (some cw) =
          some ({ m with
                    state := LNavDirector.LNavStateTURN_COMPLETING,
                    activeFlightPlan := some { plan with
                      activeWaypointIndex := plan.activeWaypointIndex + 1 } },
                []))) := by
  constructor
  · intro hg
    simp only [LNavDirector.sequenceToNextWaypoint]
    rw [if_neg (by tauto)]
  · intro hs hgs
    refine ⟨?_, ?_, ?_⟩
    · intro hd
      simp [LNavDirector.sequenceToNextWaypoint, hplan, hs, hgs, hd]
    · intro nw hd hnw hr
      simp [LNavDirector.sequenceToNextWaypoint, hplan, hs, hgs, hd, hnw, hr]
    · intro hd hnw
      simp [LNavDirector.sequenceToNextWaypoint, hplan, hs, hgs, hd, hnw]

/-- Witness for C6: a plain (non-discontinuity, non-runway) next waypoint at
ground speed 100 kt advances the active index and enters TURN_COMPLETING. -/
theorem lnav_sequence_to_next_waypoint_witness :
    LNavDirector.sequenceToNextWaypoint (LNavDirector.geoId 0) LNavDirector.envBase
      LNavDirector.lnavBase LNavDirector.planeBase (some LNavDirector.wptPlain) =
      some ({ LNavDirector.lnavBase with
                state := LNavDirector.LNavStateTURN_COMPLETING,
                activeFlightPlan := some { LNavDirector.planThree with
                  activeWaypointIndex := LNavDirector.planThree.activeWaypointIndex + 1 } },
            []) :=
  ((lnav_sequence_to_next_waypoint (LNavDirector.geoId 0) LNavDirector.envBase
    LNavDirector.lnavBase LNavDirector.planeBase LNavDirector.wptPlain
    LNavDirector.planThree rfl).2 (by decide)
    (by norm_num [LNavDirector.planeBase])).2.2 rfl (by decide)

/-- C7 (amended): in TURN_COMPLETING, while the signed angular difference
from the current heading to the new leg's desired track is at least the
15-degree rollout threshold, the director commands a constant-bank turn
heading of the current heading (not the track) plus or minus 90 degrees,
signed by the angular difference, and tracks the new leg without executing
the tracking command; as soon as the signed difference is below 15 degrees,
including every left-turn geometry (the source compares the signed value, so
any negative difference passes), the state transitions to TRACKING. -/
theorem lnav_turn_completing (geo : LNavDirector.GeoOracle)
    (env : LNavDirector.LEnv) (m : LNavDirector.LMachine)
    (plane : LNavDirector.AircraftState) (aw pw : LNavDirector.Waypoint) :
    (jsAngleDiff plane.trueHeading
        (geo.desiredTrack pw.coordinates aw.coordinates plane.position) <
        LNavDirector.degreesRollout →
      LNavDirector.handleTurnCompleting geo env m plane aw (some pw) =
        some ({ m with state := LNavDirector.LNavStateTRACKING }, [])) ∧
    (¬(jsAngleDiff plane.trueHeading
        (geo.desiredTrack pw.coordinates aw.coordinates plane.position) <
        LNavDirector.degreesRollout) →
      LNavDirector.handleTurnCompleting geo env m plane aw (some pw) =
        some ((LNavDirector.trackLeg geo env m pw.coordinates aw.coordinates
            plane false).1,
          [LNavDirector.setCourse geo
            (jsNormalizeHeading (plane.trueHeading +
              jsSign (jsAngleDiff plane.trueHeading
                (geo.desiredTrack pw.coordinates aw.coordinates plane.position)) * 90))
            plane])) := by
  constructor
  · intro h
    simp [LNavDirector.handleTurnCompleting, h]
  · intro h
    simp [LNavDirector.handleTurnCompleting, h, LNavDirector.trackLeg]

/-- Witness for C7: heading 100, desired track 130 (signed difference 30),
so the director commands heading plus 90 (190 degrees) and does not
transition. -/
theorem lnav_turn_completing_witness :
    LNavDirector.handleTurnCompleting (LNavDirector.geoId 130) LNavDirector.envBase
      LNavDirector.lnavTurnCompleting LNavDirector.planeBase LNavDirector.wptPlain
      (some LNavDirector.wptPlain) =
      some ({ LNavDirector.lnavTurnCompleting with xtkVar := 0, dtkVar := 130 },
            [LNavDirector.LEvent.headingBug 190]) := by
  have h := (lnav_turn_completing (LNavDirector.geoId 130) LNavDirector.envBase
    LNavDirector.lnavTurnCompleting LNavDirector.planeBase LNavDirector.wptPlain
    LNavDirector.wptPlain).2
    (by norm_num [jsAngleDiff, LNavDirector.geoId, LNavDirector.planeBase,
      LNavDirector.degreesRollout])
  rw [h]
  norm_num [LNavDirector.trackLeg, LNavDirector.setCourse, LNavDirector.geoId,
    jsAngleDiff, jsSign, jsNormalizeHeading, LNavDirector.planeBase,
    LNavDirector.envBase, LNavDirector.wptPlain, LNavDirector.lnavTurnCompleting,
    LNavDirector.NavSensitivityNORMAL]

/-- Counterexample for C7 as stated: first, with heading 100 and desired
track 10 the angular difference is 90 degrees (beyond the threshold), yet the
director transitions to TRACKING and commands nothing, because the source
compares the signed difference (-90) against 15; second, with heading 100 and
desired track 130 the commanded turn heading is 190 (heading + 90), not the
claimed track + 90 = 220. -/
theorem lnav_turn_completing_counterexample :
    (LNavDirector.handleTurnCompleting (LNavDirector.geoId 10) LNavDirector.envBase
        LNavDirector.lnavTurnCompleting LNavDirector.planeBase LNavDirector.wptPlain
        (some LNavDirector.wptPlain) =
      some ({ LNavDirector.lnavTurnCompleting with
                state := LNavDirector.LNavStateTRACKING }, []) ∧
      |jsAngleDiff 100 10| > LNavDirector.degreesRollout) ∧
    (LNavDirector.handleTurnCompleting (LNavDirector.geoId 130) LNavDirector.envBase
        LNavDirector.lnavTurnCompleting LNavDirector.planeBase LNavDirector.wptPlain
        (some LNavDirector.wptPlain) =
      some ({ LNavDirector.lnavTurnCompleting with xtkVar := 0, dtkVar := 130 },
            [LNavDirector.LEvent.headingBug 190]) ∧
      jsNormalizeHeading ((LNavDirector.geoId 130).desiredTrack
        LNavDirector.wptPlain.coordinates LNavDirector.wptPlain.coordinates
        LNavDirector.planeBase.position + 90) = 220 ∧
      (190 : ℚ) ≠ 220) := by
  refine ⟨⟨?_, ?_⟩, ?_, ?_, ?_⟩ <;>
    norm_num [LNavDirector.handleTurnCompleting, LNavDirector.trackLeg,
      LNavDirector.setCourse, LNavDirector.geoId, jsAngleDiff, jsSign,
      jsNormalizeHeading, LNavDirector.planeBase, LNavDirector.envBase,
      LNavDirector.wptPlain, LNavDirector.lnavTurnCompleting,
      LNavDirector.degreesRollout, LNavDirector.NavSensitivityNORMAL]

/-- C10: an update cycle of the lateral director in the TRACKING state is
total only when both the previous waypoint (active index - 1) and the next
waypoint (active index + 1) exist: `handleTracking` dereferences the
coordinates of the next and previous waypoints before any guard, so whenever
either lookup is `none` the embedded cycle returns `none` (the JS cycle
throws). -/
theorem lnav_tracking_requires_neighbors (geo : LNavDirector.GeoOracle)
    (env : LNavDirector.LEnv) (m : LNavDirector.LMachine)
    (plan : LNavDirector.FlightPlan) (aw : LNavDirector.Waypoint)
    (hv : m.currentFlightPlanVersion = env.flightPlanVersionVar)
    (hplan : m.activeFlightPlan = some plan)
    (hst : m.state = LNavDirector.LNavStateTRACKING)
    (haw : plan.getWaypoint plan.activeWaypointIndex = some aw)
    (hhold : LNavDirector.delegateToHoldsDirector env (some aw)
      plan.activeWaypointIndex = false)
    (hmiss : plan.getWaypoint (plan.activeWaypointIndex - 1) = none ∨
      plan.getWaypoint (plan.activeWaypointIndex + 1) = none) :
    LNavDirector.update geo env m = none := by
  cases hmiss with
  | inl hprev =>
    cases hnx : plan.getWaypoint (plan.activeWaypointIndex + 1) with
    | none =>
      simp [LNavDirector.update, hv, hplan, haw, hhold, hst,
        LNavDirector.handleTracking, hnx]
    | some nx =>
      simp [LNavDirector.update, hv, hplan, haw, hhold, hst,
        LNavDirector.handleTracking, hnx, hprev]
  | inr hnext =>
    simp [LNavDirector.update, hv, hplan, haw, hhold, hst,
      LNavDirector.handleTracking, hnext]

/-- Witness for C10: a two-waypoint plan with the first waypoint active has
no previous waypoint, and the TRACKING cycle errors. -/
theorem lnav_tracking_requires_neighbors_witness :
    LNavDirector.update (LNavDirector.geoId 0) LNavDirector.envBase
      LNavDirector.lnavTrackingNoPrev = none :=
  lnav_tracking_requires_neighbors (LNavDirector.geoId 0) LNavDirector.envBase
    LNavDirector.lnavTrackingNoPrev LNavDirector.planTwo LNavDirector.wptPlain
    rfl rfl rfl (by decide) (by decide) (Or.inl (by decide))
